import Mathlib

/-!
Shallow embedding of the dlogcover_rs coverage pipeline
(`src/core/coverage/coverage_calculator.rs`,
`src/core/log_identifier/log_identifier.rs`,
`src/core/ast_analyzer/ast_analyzer.rs`), together with theorems
settling the specification claims about it.

Machine integers (`u32` lines/columns, `usize` counts) are modelled as
`Nat`; the `f64` percentage is modelled exactly as a rational number,
since every percentage in the program is produced by the single
expression `covered / total * 100` (or a literal constant).
HashMaps iterated by the program are modelled as association lists;
every property proved about them is iteration-order independent.
-/

namespace Dlogcover

/-- `SourceLocation` from `ast_analyzer.rs`: file path, 1-based line and
column (`u32` in the source, modelled as `Nat`). -/
structure SourceLocation where
  file_path : String
  line : Nat
  column : Nat
deriving Repr, DecidableEq

/-- `FunctionInfo` from `ast_analyzer.rs`. -/
structure FunctionInfo where
  name : String
  qualified_name : String
  start_location : SourceLocation
  end_location : SourceLocation
  is_method : Bool
  class_name : Option String
  return_type : String
  parameters : List String
  has_body : Bool
deriving Repr, DecidableEq

/-- `BranchInfo` from `ast_analyzer.rs`. -/
structure BranchInfo where
  parent_function_qualified_name : String
  branch_type : String
  start_location : SourceLocation
  end_location : SourceLocation
  condition_expression : Option String
deriving Repr, DecidableEq

/-- `ExceptionInfo` from `ast_analyzer.rs`. -/
structure ExceptionInfo where
  parent_function_qualified_name : String
  exception_type : String
  caught_type : Option String
  start_location : SourceLocation
  end_location : SourceLocation
deriving Repr, DecidableEq

/-- `FileAstInfo` from `ast_analyzer.rs`. -/
structure FileAstInfo where
  file_path : String
  functions : List FunctionInfo
  branches : List BranchInfo
  exceptions : List ExceptionInfo
deriving Repr, DecidableEq

/-- `LogLevel` from `log_identifier.rs`. -/
inductive LogLevel where
  | debug
  | info
  | warning
  | critical
  | fatal
  | unknown
deriving Repr, DecidableEq

/-- `LogType` from `log_identifier.rs` (`Qt` is the built-in-global kind,
`QtCategory` the built-in-category kind). -/
inductive LogType where
  | qt
  | qtCategory
  | custom
  | unknown
deriving Repr, DecidableEq

/-- `LogCallSite` from `log_identifier.rs`. -/
structure LogCallSite where
  function_name : String
  source_location : SourceLocation
  log_level : LogLevel
  log_type : LogType
  parent_function_qualified_name : String
  containing_class_name : Option String
  message_arguments : List String
deriving Repr, DecidableEq

/-! ## Coverage calculator (`coverage_calculator.rs`) -/

/-- `CoverageMetrics` from `coverage_calculator.rs`; the `f64` percentage
is modelled as `ℚ`. -/
structure CoverageMetrics where
  total : Nat
  covered : Nat
  percentage : ℚ
deriving Repr, DecidableEq

/-- `#[derive(Default)]` for `CoverageMetrics`: all fields zero — in
particular the `f64` default is `0.0`, not `100.0`. -/
def CoverageMetrics.rustDefault : CoverageMetrics :=
  { total := 0, covered := 0, percentage := 0 }

/-- `CoverageMetrics::new` from `coverage_calculator.rs` lines 21-28. -/
def CoverageMetrics.new (total covered : Nat) : CoverageMetrics :=
  let percentage : ℚ := if total > 0 then (covered : ℚ) / (total : ℚ) * 100 else 100
  { total := total, covered := covered, percentage := percentage }

/-- `CoverageMetrics::calculate_percentage` from `coverage_calculator.rs`
lines 31-37 (the in-place mutation is modelled as a functional update). -/
def CoverageMetrics.calculate_percentage (m : CoverageMetrics) : CoverageMetrics :=
  { m with percentage := if m.total > 0 then (m.covered : ℚ) / (m.total : ℚ) * 100 else 100 }

/-- `PerFileCoverage` from `coverage_calculator.rs`. -/
structure PerFileCoverage where
  file_path : String
  functions : CoverageMetrics
  branches : CoverageMetrics
  exceptions : CoverageMetrics
  overall : CoverageMetrics
  uncovered_functions : List FunctionInfo
  uncovered_branches : List BranchInfo
  uncovered_exceptions : List ExceptionInfo
deriving Repr, DecidableEq

/-- `PerFileCoverage::new` from `coverage_calculator.rs` lines 55-66. -/
def PerFileCoverage.new (file_path : String) : PerFileCoverage :=
  { file_path := file_path
    functions := CoverageMetrics.rustDefault
    branches := CoverageMetrics.rustDefault
    exceptions := CoverageMetrics.rustDefault
    overall := CoverageMetrics.rustDefault
    uncovered_functions := []
    uncovered_branches := []
    uncovered_exceptions := [] }

/-- `ProjectCoverage` from `coverage_calculator.rs`. -/
structure ProjectCoverage where
  files : List PerFileCoverage
  total_functions : CoverageMetrics
  total_branches : CoverageMetrics
  total_exceptions : CoverageMetrics
  project_overall : CoverageMetrics
deriving Repr, DecidableEq

/-- `#[derive(Default)]` for `ProjectCoverage`: empty file list and
all-zero metrics (each metric is `CoverageMetrics::default()`). -/
def ProjectCoverage.rustDefault : ProjectCoverage :=
  { files := []
    total_functions := CoverageMetrics.rustDefault
    total_branches := CoverageMetrics.rustDefault
    total_exceptions := CoverageMetrics.rustDefault
    project_overall := CoverageMetrics.rustDefault }

/-- `CoverageCalculator::is_location_within_range` from
`coverage_calculator.rs` lines 92-107. -/
def is_location_within_range (log_loc item_start_loc item_end_loc : SourceLocation) : Bool :=
  if log_loc.line < item_start_loc.line || log_loc.line > item_end_loc.line then
    false
  else if log_loc.line == item_start_loc.line && log_loc.column < item_start_loc.column then
    false
  else if log_loc.line == item_end_loc.line && log_loc.column > item_end_loc.column then
    false
  else
    true

/-- The per-function coverage test inside `calculate_file_coverage`
(lines 119-122): qualified-name equality with the call site's enclosing
function, or span containment. -/
def function_site_matches (func_info : FunctionInfo) (log_site : LogCallSite) : Bool :=
  log_site.parent_function_qualified_name == func_info.qualified_name ||
    is_location_within_range log_site.source_location
      func_info.start_location func_info.end_location

/-- The per-branch coverage test inside `calculate_file_coverage`
(lines 135-137): span containment only. -/
def branch_site_matches (branch_info : BranchInfo) (log_site : LogCallSite) : Bool :=
  is_location_within_range log_site.source_location
    branch_info.start_location branch_info.end_location

/-- The per-exception coverage test inside `calculate_file_coverage`
(lines 149-151): span containment only. -/
def exception_site_matches (exc_info : ExceptionInfo) (log_site : LogCallSite) : Bool :=
  is_location_within_range log_site.source_location
    exc_info.start_location exc_info.end_location

/-- `CoverageCalculator::calculate_file_coverage` from
`coverage_calculator.rs` lines 109-167.  The three accumulation loops
(count covered, collect uncovered) are rendered with
`List.countP` / `List.filter` over the same element predicates. -/
def calculate_file_coverage (file_ast : FileAstInfo) (log_sites : List LogCallSite) :
    PerFileCoverage :=
  let base := PerFileCoverage.new file_ast.file_path
  let bodied := file_ast.functions.filter (fun f => f.has_body)
  let functions_metrics : CoverageMetrics :=
    CoverageMetrics.calculate_percentage
      { base.functions with
        total := bodied.length
        covered := bodied.countP (fun f => log_sites.any (function_site_matches f)) }
  let branches_metrics : CoverageMetrics :=
    CoverageMetrics.calculate_percentage
      { base.branches with
        total := file_ast.branches.length
        covered := file_ast.branches.countP (fun b => log_sites.any (branch_site_matches b)) }
  let exceptions_metrics : CoverageMetrics :=
    CoverageMetrics.calculate_percentage
      { base.exceptions with
        total := file_ast.exceptions.length
        covered := file_ast.exceptions.countP (fun e => log_sites.any (exception_site_matches e)) }
  let total_items := functions_metrics.total + branches_metrics.total + exceptions_metrics.total
  let covered_items :=
    functions_metrics.covered + branches_metrics.covered + exceptions_metrics.covered
  { base with
    functions := functions_metrics
    branches := branches_metrics
    exceptions := exceptions_metrics
    overall := CoverageMetrics.new total_items covered_items
    uncovered_functions := bodied.filter (fun f => !(log_sites.any (function_site_matches f)))
    uncovered_branches :=
      file_ast.branches.filter (fun b => !(log_sites.any (branch_site_matches b)))
    uncovered_exceptions :=
      file_ast.exceptions.filter (fun e => !(log_sites.any (exception_site_matches e))) }

/-- `log_sites_map.get(file_path).unwrap_or(&empty_log_sites)` from
`calculate_project_coverage` (lines 183-184), on the association-list
model of the map. -/
def lookup_log_sites (log_sites_map : List (String × List LogCallSite)) (file_path : String) :
    List LogCallSite :=
  match log_sites_map.lookup file_path with
  | some sites => sites
  | none => []

/-- The per-file accumulation step of `calculate_project_coverage`
(lines 182-197): add the file's totals into the running project totals
and append its `PerFileCoverage`. -/
def project_accumulate (log_sites_map : List (String × List LogCallSite))
    (pc : ProjectCoverage) (entry : String × FileAstInfo) : ProjectCoverage :=
  let file_cov := calculate_file_coverage entry.2 (lookup_log_sites log_sites_map entry.1)
  { pc with
    total_functions :=
      { pc.total_functions with
        total := pc.total_functions.total + file_cov.functions.total
        covered := pc.total_functions.covered + file_cov.functions.covered }
    total_branches :=
      { pc.total_branches with
        total := pc.total_branches.total + file_cov.branches.total
        covered := pc.total_branches.covered + file_cov.branches.covered }
    total_exceptions :=
      { pc.total_exceptions with
        total := pc.total_exceptions.total + file_cov.exceptions.total
        covered := pc.total_exceptions.covered + file_cov.exceptions.covered }
    files := pc.files ++ [file_cov] }

/-- `CoverageCalculator::calculate_project_coverage` from
`coverage_calculator.rs` lines 169-219.  The `HashMap` of per-file AST
results is modelled as an association list (iteration order is
irrelevant to every property proved below). -/
def calculate_project_coverage (ast_results : List (String × FileAstInfo))
    (log_sites_map : List (String × List LogCallSite)) :
    Except String ProjectCoverage :=
  if ast_results.isEmpty then
    Except.ok ProjectCoverage.rustDefault
  else
    let pc := ast_results.foldl (project_accumulate log_sites_map) ProjectCoverage.rustDefault
    let pc :=
      { pc with
        total_functions := pc.total_functions.calculate_percentage
        total_branches := pc.total_branches.calculate_percentage
        total_exceptions := pc.total_exceptions.calculate_percentage }
    let overall_total_items :=
      pc.total_functions.total + pc.total_branches.total + pc.total_exceptions.total
    let overall_covered_items :=
      pc.total_functions.covered + pc.total_branches.covered + pc.total_exceptions.covered
    Except.ok
      { pc with
        project_overall := CoverageMetrics.new overall_total_items overall_covered_items }

/-! ## Configuration (`config/config_manager.rs`) -/

/-- `QtLogConfig` from `config_manager.rs`: built-in-global and
built-in-category function name lists under one enabled flag. -/
structure QtLogConfig where
  enabled : Bool
  functions : List String
  category_functions : List String
deriving Repr, DecidableEq

/-- `CustomLogConfig` from `config_manager.rs`; the
`HashMap<String, Vec<String>>` level-tag→name-list mapping is modelled
as an association list (its iteration order in the source is
implementation-defined, matching the list order here). -/
structure CustomLogConfig where
  enabled : Bool
  functions : List (String × List String)
deriving Repr, DecidableEq

/-- `LogFunctionsConfig` from `config_manager.rs`. -/
structure LogFunctionsConfig where
  qt : QtLogConfig
  custom : CustomLogConfig
deriving Repr, DecidableEq

/-- `ScanConfig` from `config_manager.rs` (not consumed by the core
components modelled here). -/
structure ScanConfig where
  directories : List String
  excludes : List String
  file_types : List String
deriving Repr, DecidableEq

/-- `Config` from `config_manager.rs`, restricted to the fields the core
pipeline reads (`analysis` and `report` are consumed only by upstream
glue). -/
structure Config where
  scan : ScanConfig
  log_functions : LogFunctionsConfig
deriving Repr, DecidableEq

/-! ## Call-site classification (`log_identifier.rs` lines 231-274) -/

/-- Rust's `str::starts_with` on string literals, as a structural prefix
test on the character data. -/
def starts_with (s p : String) : Bool := p.data.isPrefixOf s.data

/-- Rust's `str::to_lowercase`, modelled as character-wise ASCII
lowercasing (all strings the program compares it against are ASCII). -/
def to_lowercase (s : String) : String := String.mk (s.data.map Char.toLower)

/-- The built-in-global prefix→level chain from `log_identifier.rs`
lines 238-242 (starting from the `LogLevel::Unknown` initializer). -/
def qt_prefix_level (callee_name : String) : LogLevel :=
  if starts_with callee_name "qDebug" then LogLevel.debug
  else if starts_with callee_name "qInfo" then LogLevel.info
  else if starts_with callee_name "qWarning" then LogLevel.warning
  else if starts_with callee_name "qCritical" then LogLevel.critical
  else if starts_with callee_name "qFatal" then LogLevel.fatal
  else LogLevel.unknown

/-- The built-in-category prefix→level chain from `log_identifier.rs`
lines 250-253 (no fatal category). -/
def qt_category_prefix_level (callee_name : String) : LogLevel :=
  if starts_with callee_name "qCDebug" then LogLevel.debug
  else if starts_with callee_name "qCInfo" then LogLevel.info
  else if starts_with callee_name "qCWarning" then LogLevel.warning
  else if starts_with callee_name "qCCritical" then LogLevel.critical
  else LogLevel.unknown

/-- The level-tag parse from `log_identifier.rs` lines 262-269:
lowercase the tag, then match with `warn`/`error` accepted as synonyms;
anything unrecognized is `Unknown`. -/
def level_from_tag (level_str : String) : LogLevel :=
  match to_lowercase level_str with
  | "debug" => LogLevel.debug
  | "info" => LogLevel.info
  | "warning" => LogLevel.warning
  | "warn" => LogLevel.warning
  | "error" => LogLevel.critical
  | "critical" => LogLevel.critical
  | "fatal" => LogLevel.fatal
  | _ => LogLevel.unknown

/-- The custom-mapping scan from `log_identifier.rs` lines 259-273:
first entry whose name list contains the callee wins. -/
def custom_scan (mapping : List (String × List String)) (callee_name : String) :
    Option (LogType × LogLevel) :=
  match mapping with
  | [] => none
  | (level_str, func_names) :: rest =>
    if func_names.contains callee_name then
      some (LogType.custom, level_from_tag level_str)
    else
      custom_scan rest callee_name

/-- The complete matching policy for one call expression,
`log_identifier.rs` lines 231-274: built-in global first, then built-in
category, then the custom mapping; `none` when nothing matches
(`matched` stays false and no `LogCallSite` is pushed). -/
def classify_call (config : Config) (callee_name : String) : Option (LogType × LogLevel) :=
  if config.log_functions.qt.enabled && config.log_functions.qt.functions.contains callee_name then
    some (LogType.qt, qt_prefix_level callee_name)
  else if config.log_functions.qt.enabled &&
      config.log_functions.qt.category_functions.contains callee_name then
    some (LogType.qtCategory, qt_category_prefix_level callee_name)
  else if config.log_functions.custom.enabled then
    custom_scan config.log_functions.custom.functions callee_name
  else
    none

/-! ## The parsed tree (external front-end interface, §6 of the spec)

The native front end hands both visitors a cursor tree.  A cursor is
modelled with exactly the attributes the two visitors read from the
front-end API: kind, whether its location is in the main file
(`clang_Location_isFromMainFile`), whether it is a definition
(`clang_isCursorDefinition`), its spelling, USR, the spelling of the
referenced declaration (`clang_getCursorReferenced` + spelling, read
only at call expressions), its location (`clang_getCursorLocation`),
its extent's start/end (`clang_getCursorExtent`), its result-type
spelling, its argument cursors (spelling and type spelling), the
cursor's own type spelling (read at catch statements), and its
children. -/

/-- The cursor kinds the two visitors dispatch on; every other kind
falls into `other`. -/
inductive CursorKind where
  | namespaceDecl
  | classDecl
  | structDecl
  | functionDecl
  | cxxMethod
  | callExpr
  | ifStmt
  | switchStmt
  | caseStmt
  | defaultStmt
  | forStmt
  | whileStmt
  | doStmt
  | cxxTryStmt
  | cxxCatchStmt
  | other
deriving Repr, DecidableEq

/-- An argument cursor, as read via `clang_Cursor_getArgument`:
its spelling and its type's spelling. -/
structure CursorArg where
  spelling : String
  type_spelling : String
deriving Repr, DecidableEq

/-- A front-end cursor (see the section comment for the correspondence
of each field to a front-end API call). -/
inductive Cursor where
  | node (kind : CursorKind) (from_main_file : Bool) (is_definition : Bool)
      (spelling : String) (usr : String) (ref_spelling : String)
      (location : SourceLocation) (extent_start : SourceLocation) (extent_end : SourceLocation)
      (result_type_spelling : String) (args : List CursorArg) (type_spelling : String)
      (children : List Cursor)
deriving Repr

def Cursor.kind : Cursor → CursorKind
  | .node k _ _ _ _ _ _ _ _ _ _ _ _ => k

def Cursor.from_main_file : Cursor → Bool
  | .node _ mf _ _ _ _ _ _ _ _ _ _ _ => mf

def Cursor.is_definition : Cursor → Bool
  | .node _ _ d _ _ _ _ _ _ _ _ _ _ => d

def Cursor.spelling : Cursor → String
  | .node _ _ _ s _ _ _ _ _ _ _ _ _ => s

def Cursor.usr : Cursor → String
  | .node _ _ _ _ u _ _ _ _ _ _ _ _ => u

def Cursor.ref_spelling : Cursor → String
  | .node _ _ _ _ _ r _ _ _ _ _ _ _ => r

def Cursor.location : Cursor → SourceLocation
  | .node _ _ _ _ _ _ l _ _ _ _ _ _ => l

def Cursor.extent_start : Cursor → SourceLocation
  | .node _ _ _ _ _ _ _ s _ _ _ _ _ => s

def Cursor.extent_end : Cursor → SourceLocation
  | .node _ _ _ _ _ _ _ _ e _ _ _ _ => e

def Cursor.result_type_spelling : Cursor → String
  | .node _ _ _ _ _ _ _ _ _ rt _ _ _ => rt

def Cursor.args : Cursor → List CursorArg
  | .node _ _ _ _ _ _ _ _ _ _ a _ _ => a

def Cursor.type_spelling : Cursor → String
  | .node _ _ _ _ _ _ _ _ _ _ _ t _ => t

def Cursor.children : Cursor → List Cursor
  | .node _ _ _ _ _ _ _ _ _ _ _ _ cs => cs

/-- The qualified name chosen in both visitors
(`ast_analyzer.rs` line 292, `log_identifier.rs` line 222):
the USR when non-empty, otherwise the plain spelling. -/
def qualified_name_of (spelling usr : String) : String :=
  if usr == "" then spelling else usr

/-! ## Structural extractor (`ast_analyzer.rs` lines 258-416)

The mutable visitor context with save/restore scoping is modelled by
passing the context downward only: each node's context change is local
to its subtree, which is exactly what the save/restore bookkeeping in
`visit_cursor_recursive` achieves.  The shared output vectors become
appended result lists in depth-first pre-order, the order in which the
source pushes into them. -/

/-- `VisitorContext` from `ast_analyzer.rs` lines 116-121 (the output
buffer is made a return value instead of a mutable field). -/
structure AstVisitorContext where
  current_function_qname : Option String
  current_class_name : Option String
deriving Repr, DecidableEq

/-- The three output vectors of `FileAstInfo` filled by the extractor. -/
structure AstOut where
  functions : List FunctionInfo
  branches : List BranchInfo
  exceptions : List ExceptionInfo
deriving Repr, DecidableEq

def AstOut.empty : AstOut := { functions := [], branches := [], exceptions := [] }

def AstOut.append (a b : AstOut) : AstOut :=
  { functions := a.functions ++ b.functions
    branches := a.branches ++ b.branches
    exceptions := a.exceptions ++ b.exceptions }

/-- Emission of one `BranchInfo` (`ast_analyzer.rs` lines 327-376):
recorded only when a function context is active. -/
def ast_branch_action (ctx : AstVisitorContext) (c : Cursor) (branch_type : String) : AstOut :=
  match ctx.current_function_qname with
  | some func_qname =>
    { AstOut.empty with
      branches :=
        [{ parent_function_qualified_name := func_qname
           branch_type := branch_type
           start_location := c.extent_start
           end_location := c.extent_end
           condition_expression := none }] }
  | none => AstOut.empty

/-- Emission of one `ExceptionInfo` (`ast_analyzer.rs` lines 377-400):
recorded only when a function context is active. -/
def ast_exception_action (ctx : AstVisitorContext) (c : Cursor) (exception_type : String)
    (caught_type : Option String) : AstOut :=
  match ctx.current_function_qname with
  | some func_qname =>
    { AstOut.empty with
      exceptions :=
        [{ parent_function_qualified_name := func_qname
           exception_type := exception_type
           caught_type := caught_type
           start_location := c.extent_start
           end_location := c.extent_end }] }
  | none => AstOut.empty

/-- The `match kind` body of `visit_cursor_recursive`
(`ast_analyzer.rs` lines 282-402) for a main-file node: what it emits
and the context its children see. -/
def ast_node_action (ctx : AstVisitorContext) (c : Cursor) : AstOut × AstVisitorContext :=
  match c.kind with
  | .namespaceDecl => (AstOut.empty, ctx)
  | .classDecl => (AstOut.empty, { ctx with current_class_name := some c.spelling })
  | .structDecl => (AstOut.empty, { ctx with current_class_name := some c.spelling })
  | .functionDecl | .cxxMethod =>
    if c.is_definition then
      let qualified_name := qualified_name_of c.spelling c.usr
      let parameters := c.args.map fun a =>
        if a.spelling == "" then a.type_spelling
        else a.spelling ++ ": " ++ a.type_spelling
      let func_info : FunctionInfo :=
        { name := c.spelling
          qualified_name := qualified_name
          start_location := c.extent_start
          end_location := c.extent_end
          is_method := c.kind == CursorKind.cxxMethod
          class_name := if c.kind == CursorKind.cxxMethod then ctx.current_class_name else none
          return_type := c.result_type_spelling
          parameters := parameters
          has_body := true }
      ({ AstOut.empty with functions := [func_info] },
        { ctx with current_function_qname := some qualified_name })
    else
      (AstOut.empty, ctx)
  | .ifStmt => (ast_branch_action ctx c "if", ctx)
  | .switchStmt => (ast_branch_action ctx c "switch", ctx)
  | .caseStmt => (ast_branch_action ctx c "case", ctx)
  | .defaultStmt => (ast_branch_action ctx c "default", ctx)
  | .forStmt => (ast_branch_action ctx c "for", ctx)
  | .whileStmt => (ast_branch_action ctx c "while", ctx)
  | .doStmt => (ast_branch_action ctx c "do_while", ctx)
  | .cxxTryStmt => (ast_exception_action ctx c "try" none, ctx)
  | .cxxCatchStmt =>
    let caught_type_str := c.type_spelling
    (ast_exception_action ctx c "catch"
        (if caught_type_str == "" || caught_type_str == "..." then none
         else some caught_type_str),
      ctx)
  | .callExpr => (AstOut.empty, ctx)
  | .other => (AstOut.empty, ctx)

mutual

/-- `visit_cursor_recursive` from `ast_analyzer.rs` lines 258-416: a
node outside the main file is skipped but its children are still
visited; a main-file node is processed, its children are visited under
the possibly-updated context, and the context is restored afterwards
(hence the context is only passed down, never returned). -/
def visit_cursor_recursive (ctx : AstVisitorContext) (c : Cursor) : AstOut :=
  match c with
  | .node _ mf _ _ _ _ _ _ _ _ _ _ children =>
    if mf then
      let step := ast_node_action ctx c
      step.1.append (visit_cursor_list step.2 children)
    else
      visit_cursor_list ctx children

/-- `clang_visitChildren` over a child list for the extractor. -/
def visit_cursor_list (ctx : AstVisitorContext) (cs : List Cursor) : AstOut :=
  match cs with
  | [] => AstOut.empty
  | c :: rest => (visit_cursor_recursive ctx c).append (visit_cursor_list ctx rest)

end

/-! ## Call-site identifier (`log_identifier.rs` lines 194-316) -/

/-- `LogVisitorContext` from `log_identifier.rs` lines 49-56 (the output
vector becomes a return value). -/
structure LogVisitorContext where
  current_parent_function_qname : Option String
  current_parent_class_name : Option String
deriving Repr, DecidableEq

/-- The `match kind` body of `visit_log_identifier_cursor`
(`log_identifier.rs` lines 213-302) for a main-file node: the call
sites it pushes and the context its children see. -/
def log_node_action (config : Config) (ctx : LogVisitorContext) (c : Cursor) :
    List LogCallSite × LogVisitorContext :=
  match c.kind with
  | .classDecl =>
    ([], { ctx with current_parent_class_name := some c.spelling })
  | .structDecl =>
    ([], { ctx with current_parent_class_name := some c.spelling })
  | .functionDecl | .cxxMethod =>
    if c.is_definition then
      ([], { ctx with
              current_parent_function_qname := some (qualified_name_of c.spelling c.usr) })
    else
      ([], ctx)
  | .callExpr =>
    match ctx.current_parent_function_qname with
    | some parent_func_qname =>
      match classify_call config c.ref_spelling with
      | some (log_type, log_level) =>
        ([{ function_name := c.ref_spelling
            source_location := c.location
            log_level := log_level
            log_type := log_type
            parent_function_qualified_name := parent_func_qname
            containing_class_name := ctx.current_parent_class_name
            message_arguments := c.args.map fun a =>
              if a.spelling != "" then a.spelling else "<complex_arg>" }],
          ctx)
      | none => ([], ctx)
    | none => ([], ctx)
  | _ => ([], ctx)

mutual

/-- `visit_log_identifier_cursor` from `log_identifier.rs` lines
196-316: same traversal scheme as the extractor (skip-but-recurse for
nodes outside the main file, process-then-recurse with save/restore
context otherwise), emitting `LogCallSite`s. -/
def visit_log_identifier_cursor (config : Config) (ctx : LogVisitorContext) (c : Cursor) :
    List LogCallSite :=
  match c with
  | .node _ mf _ _ _ _ _ _ _ _ _ _ children =>
    if mf then
      let step := log_node_action config ctx c
      step.1 ++ visit_log_list config step.2 children
    else
      visit_log_list config ctx children

/-- `clang_visitChildren` over a child list for the identifier. -/
def visit_log_list (config : Config) (ctx : LogVisitorContext) (cs : List Cursor) :
    List LogCallSite :=
  match cs with
  | [] => []
  | c :: rest =>
    visit_log_identifier_cursor config ctx c ++ visit_log_list config ctx rest

end

/-! ## Per-file parsing and the analysis driver
(`ast_analyzer.rs` lines 135-226, `log_identifier.rs` lines 103-190)

The parsing front end is external (spec §6): it is modelled as data — a
file comes with the diagnostics list the front end reports and the
children of its translation-unit cursor. -/

/-- The front-end diagnostic severities the pipeline distinguishes. -/
inductive DiagnosticSeverity where
  | ignored
  | note
  | warning
  | diagError
  | fatal
deriving Repr, DecidableEq

/-- `severity == CXDiagnostic_Error || severity == CXDiagnostic_Fatal`,
the abort test of both front-end consumers. -/
def is_fatal_severity (s : DiagnosticSeverity) : Bool :=
  s == DiagnosticSeverity.diagError || s == DiagnosticSeverity.fatal

/-- One source file as handed to the pipeline: its path, the front
end's diagnostics for it, and the translation-unit cursor's children. -/
structure ParsedFile where
  path : String
  diagnostics : List DiagnosticSeverity
  top_level : List Cursor

/-- `AstAnalyzer::parse_and_visit_file` from `ast_analyzer.rs` lines
153-226: abort with an error when any diagnostic is at error/fatal
severity (lines 193-203), otherwise visit the tree from an empty
context and return the `FileAstInfo`. -/
def parse_and_visit_file (pf : ParsedFile) : Except String FileAstInfo :=
  if pf.diagnostics.any is_fatal_severity then
    Except.error ("Fatal parsing errors in " ++ pf.path)
  else
    let out := visit_cursor_list
      { current_function_qname := none, current_class_name := none } pf.top_level
    Except.ok
      { file_path := pf.path
        functions := out.functions
        branches := out.branches
        exceptions := out.exceptions }

/-- `AstAnalyzer::analyze_files` from `ast_analyzer.rs` lines 135-151:
per-file results are inserted into `analysis_results` only on success,
a failed file is logged and skipped, and the function itself always
returns `Ok(())`.  The result map (a field of `AstAnalyzer` in the
source) is returned alongside the `Result`. -/
def analyze_files (files : List ParsedFile) :
    List (String × FileAstInfo) × Except String Unit :=
  (files.foldl
      (fun acc pf =>
        match parse_and_visit_file pf with
        | Except.ok file_ast_info => acc ++ [(pf.path, file_ast_info)]
        | Except.error _ => acc)
      [],
    Except.ok ())

/-- `LogIdentifier::identify_log_calls_in_file` from `log_identifier.rs`
lines 103-190: the same fatal-diagnostic abort, then the log visitor
from an empty context. -/
def identify_log_calls_in_file (config : Config) (pf : ParsedFile) :
    Except String (List LogCallSite) :=
  if pf.diagnostics.any is_fatal_severity then
    Except.error ("LogIdentifier: Fatal parsing errors in " ++ pf.path)
  else
    Except.ok
      (visit_log_list config
        { current_parent_function_qname := none, current_parent_class_name := none }
        pf.top_level)

/-! ## Spec-side predicates

These definitions follow the specification's words (spec §4.3 and §8),
to be compared against the source-derived definitions above. -/

/-- Modelled from the spec: the span-containment rule of §4.3, stated as
the spec states it (reject on each of the four conditions, otherwise
accept). -/
def spec_loc_within (L S E : SourceLocation) : Prop :=
  ¬(L.line < S.line) ∧ ¬(L.line > E.line) ∧
    ¬(L.line = S.line ∧ L.column < S.column) ∧
    ¬(L.line = E.line ∧ L.column > E.column)

instance (L S E : SourceLocation) : Decidable (spec_loc_within L S E) := by
  unfold spec_loc_within; infer_instance

/-- Modelled from the spec: the function coverage test of §4.3 — some
call site shares the function's qualified name or lies in its span. -/
def spec_function_covered (log_sites : List LogCallSite) (f : FunctionInfo) : Prop :=
  ∃ s ∈ log_sites,
    s.parent_function_qualified_name = f.qualified_name ∨
      spec_loc_within s.source_location f.start_location f.end_location

instance (log_sites : List LogCallSite) (f : FunctionInfo) :
    Decidable (spec_function_covered log_sites f) := by
  unfold spec_function_covered; infer_instance

/-- Modelled from the spec: the branch/exception coverage test of §4.3 —
some call site lies in the item's span (span rule only). -/
def spec_span_covered (log_sites : List LogCallSite) (S E : SourceLocation) : Prop :=
  ∃ s ∈ log_sites, spec_loc_within s.source_location S E

instance (log_sites : List LogCallSite) (S E : SourceLocation) :
    Decidable (spec_span_covered log_sites S E) := by
  unfold spec_span_covered; infer_instance

/-- A well-formed span: start not after end in the (line, column)
lexicographic order (spec glossary, "inclusive [start, end] pair"). -/
def span_ordered (S E : SourceLocation) : Prop :=
  S.line < E.line ∨ (S.line = E.line ∧ S.column ≤ E.column)

/-! ## Helper lemmas -/

theorem is_location_within_range_iff (L S E : SourceLocation) :
    is_location_within_range L S E = true ↔ spec_loc_within L S E := by
  unfold is_location_within_range spec_loc_within
  split
  · rename_i h
    simp only [Bool.or_eq_true, decide_eq_true_eq] at h
    exact iff_of_false (by simp) (by omega)
  · rename_i h1
    simp only [Bool.or_eq_true, decide_eq_true_eq, not_or] at h1
    split
    · rename_i h2
      simp only [Bool.and_eq_true, beq_iff_eq, decide_eq_true_eq] at h2
      exact iff_of_false (by simp) (by omega)
    · rename_i h2
      simp only [Bool.and_eq_true, beq_iff_eq, decide_eq_true_eq, not_and] at h2
      split
      · rename_i h3
        simp only [Bool.and_eq_true, beq_iff_eq, decide_eq_true_eq] at h3
        exact iff_of_false (by simp) (by omega)
      · rename_i h3
        simp only [Bool.and_eq_true, beq_iff_eq, decide_eq_true_eq, not_and] at h3
        exact iff_of_true rfl (by omega)

/-- C2: the span-containment test accepts a location exactly under the
spec's four-clause rule; both span endpoints are accepted, a location
one column before the start on the start line is rejected, and a
location one column after the end on the end line is rejected. -/
theorem claim_C2_span_containment :
    (∀ L S E : SourceLocation,
      is_location_within_range L S E = true ↔
        ¬(L.line < S.line) ∧ ¬(L.line > E.line) ∧
          ¬(L.line = S.line ∧ L.column < S.column) ∧
          ¬(L.line = E.line ∧ L.column > E.column)) ∧
    (∀ S E : SourceLocation, span_ordered S E →
      is_location_within_range S S E = true ∧ is_location_within_range E S E = true) ∧
    (∀ S E : SourceLocation, 0 < S.column →
      is_location_within_range { S with column := S.column - 1 } S E = false) ∧
    (∀ S E : SourceLocation,
      is_location_within_range { E with column := E.column + 1 } S E = false) := by
  refine ⟨fun L S E => is_location_within_range_iff L S E, ?_, ?_, ?_⟩
  · intro S E h
    unfold span_ordered at h
    constructor <;>
      · rw [is_location_within_range_iff]
        unfold spec_loc_within
        omega
  · intro S E h
    obtain ⟨fS, lS, cS⟩ := S
    obtain ⟨fE, lE, cE⟩ := E
    rw [← Bool.not_eq_true, is_location_within_range_iff]
    unfold spec_loc_within
    dsimp only at h ⊢
    omega
  · intro S E
    obtain ⟨fS, lS, cS⟩ := S
    obtain ⟨fE, lE, cE⟩ := E
    rw [← Bool.not_eq_true, is_location_within_range_iff]
    unfold spec_loc_within
    dsimp only
    omega

/-- Witness for C2 at concrete inputs: the endpoint and near-miss parts
applied to the span [(2,4), (5,9)] and a location at column 3 of
line 2. -/
theorem claim_C2_span_containment_witness :
    is_location_within_range { file_path := "a.cpp", line := 2, column := 4 }
        { file_path := "a.cpp", line := 2, column := 4 }
        { file_path := "a.cpp", line := 5, column := 9 } = true ∧
    is_location_within_range { file_path := "a.cpp", line := 2, column := 3 }
        { file_path := "a.cpp", line := 2, column := 4 }
        { file_path := "a.cpp", line := 5, column := 9 } = false := by
  constructor
  · exact (claim_C2_span_containment.2.1
      { file_path := "a.cpp", line := 2, column := 4 }
      { file_path := "a.cpp", line := 5, column := 9 } (by unfold span_ordered; dsimp only; omega)).1
  · exact claim_C2_span_containment.2.2.1
      { file_path := "a.cpp", line := 2, column := 4 }
      { file_path := "a.cpp", line := 5, column := 9 } (by dsimp only; omega)

theorem any_function_site_matches_eq (log_sites : List LogCallSite) (f : FunctionInfo) :
    log_sites.any (function_site_matches f) = decide (spec_function_covered log_sites f) := by
  rw [Bool.eq_iff_iff]
  simp only [List.any_eq_true, function_site_matches, Bool.or_eq_true, beq_iff_eq,
    is_location_within_range_iff, decide_eq_true_eq, spec_function_covered]

theorem any_branch_site_matches_eq (log_sites : List LogCallSite) (b : BranchInfo) :
    log_sites.any (branch_site_matches b) =
      decide (spec_span_covered log_sites b.start_location b.end_location) := by
  rw [Bool.eq_iff_iff]
  simp only [List.any_eq_true, branch_site_matches, is_location_within_range_iff,
    decide_eq_true_eq, spec_span_covered]

theorem any_exception_site_matches_eq (log_sites : List LogCallSite) (e : ExceptionInfo) :
    log_sites.any (exception_site_matches e) =
      decide (spec_span_covered log_sites e.start_location e.end_location) := by
  rw [Bool.eq_iff_iff]
  simp only [List.any_eq_true, exception_site_matches, is_location_within_range_iff,
    decide_eq_true_eq, spec_span_covered]

/-- C1: in `calculate_file_coverage`, a function with a body is counted
covered exactly when some call site shares its qualified name or lies in
its span, and a branch or exception item is counted covered exactly when
some call site lies in its span (span rule only); the uncovered lists
collect exactly the items failing the respective test. -/
theorem claim_C1_coverage_test (file_ast : FileAstInfo) (log_sites : List LogCallSite) :
    ((calculate_file_coverage file_ast log_sites).functions.covered =
      ((file_ast.functions.filter fun f => f.has_body).filter
        fun f => decide (spec_function_covered log_sites f)).length) ∧
    ((calculate_file_coverage file_ast log_sites).uncovered_functions =
      (file_ast.functions.filter fun f => f.has_body).filter
        fun f => !decide (spec_function_covered log_sites f)) ∧
    ((calculate_file_coverage file_ast log_sites).branches.covered =
      (file_ast.branches.filter fun b =>
        decide (spec_span_covered log_sites b.start_location b.end_location)).length) ∧
    ((calculate_file_coverage file_ast log_sites).uncovered_branches =
      file_ast.branches.filter fun b =>
        !decide (spec_span_covered log_sites b.start_location b.end_location)) ∧
    ((calculate_file_coverage file_ast log_sites).exceptions.covered =
      (file_ast.exceptions.filter fun e =>
        decide (spec_span_covered log_sites e.start_location e.end_location)).length) ∧
    ((calculate_file_coverage file_ast log_sites).uncovered_exceptions =
      file_ast.exceptions.filter fun e =>
        !decide (spec_span_covered log_sites e.start_location e.end_location)) := by
  simp only [calculate_file_coverage, CoverageMetrics.calculate_percentage,
    List.countP_eq_length_filter, any_function_site_matches_eq, any_branch_site_matches_eq,
    any_exception_site_matches_eq]
  refine ⟨?_, ?_, ?_, ?_, ?_, ?_⟩ <;> trivial

@[simp] theorem calculate_percentage_total (m : CoverageMetrics) :
    m.calculate_percentage.total = m.total := rfl

@[simp] theorem calculate_percentage_covered (m : CoverageMetrics) :
    m.calculate_percentage.covered = m.covered := rfl

@[simp] theorem new_total (t c : Nat) : (CoverageMetrics.new t c).total = t := rfl

@[simp] theorem new_covered (t c : Nat) : (CoverageMetrics.new t c).covered = c := rfl

theorem project_foldl_spec (lm : List (String × List LogCallSite))
    (l : List (String × FileAstInfo)) (pc : ProjectCoverage) :
    l.foldl (project_accumulate lm) pc =
      { files := pc.files ++ l.map fun x => calculate_file_coverage x.2 (lookup_log_sites lm x.1)
        total_functions :=
          { total := pc.total_functions.total +
              (l.map fun x =>
                (calculate_file_coverage x.2 (lookup_log_sites lm x.1)).functions.total).sum
            covered := pc.total_functions.covered +
              (l.map fun x =>
                (calculate_file_coverage x.2 (lookup_log_sites lm x.1)).functions.covered).sum
            percentage := pc.total_functions.percentage }
        total_branches :=
          { total := pc.total_branches.total +
              (l.map fun x =>
                (calculate_file_coverage x.2 (lookup_log_sites lm x.1)).branches.total).sum
            covered := pc.total_branches.covered +
              (l.map fun x =>
                (calculate_file_coverage x.2 (lookup_log_sites lm x.1)).branches.covered).sum
            percentage := pc.total_branches.percentage }
        total_exceptions :=
          { total := pc.total_exceptions.total +
              (l.map fun x =>
                (calculate_file_coverage x.2 (lookup_log_sites lm x.1)).exceptions.total).sum
            covered := pc.total_exceptions.covered +
              (l.map fun x =>
                (calculate_file_coverage x.2 (lookup_log_sites lm x.1)).exceptions.covered).sum
            percentage := pc.total_exceptions.percentage }
        project_overall := pc.project_overall } := by
  induction l generalizing pc with
  | nil => simp
  | cons x rest ih =>
    rw [List.foldl_cons, ih]
    obtain ⟨files, ⟨tft, tfc, tfp⟩, ⟨tbt, tbc, tbp⟩, ⟨tet, tec, tep⟩, po⟩ := pc
    simp only [project_accumulate, List.map_cons, List.sum_cons,
      ProjectCoverage.mk.injEq, CoverageMetrics.mk.injEq]
    refine ⟨by simp, ⟨by omega, by omega, by trivial⟩, ⟨by omega, by omega, by trivial⟩,
      ⟨by omega, by omega, by trivial⟩, by trivial⟩

/-- The result of `calculate_project_coverage` on a non-empty input, in
closed form. -/
theorem calculate_project_coverage_nonempty (ar : List (String × FileAstInfo))
    (lm : List (String × List LogCallSite)) (h : ar ≠ []) :
    calculate_project_coverage ar lm =
      Except.ok
        { files := ar.map fun x => calculate_file_coverage x.2 (lookup_log_sites lm x.1)
          total_functions := CoverageMetrics.calculate_percentage
            { total := (ar.map fun x =>
                (calculate_file_coverage x.2 (lookup_log_sites lm x.1)).functions.total).sum
              covered := (ar.map fun x =>
                (calculate_file_coverage x.2 (lookup_log_sites lm x.1)).functions.covered).sum
              percentage := 0 }
          total_branches := CoverageMetrics.calculate_percentage
            { total := (ar.map fun x =>
                (calculate_file_coverage x.2 (lookup_log_sites lm x.1)).branches.total).sum
              covered := (ar.map fun x =>
                (calculate_file_coverage x.2 (lookup_log_sites lm x.1)).branches.covered).sum
              percentage := 0 }
          total_exceptions := CoverageMetrics.calculate_percentage
            { total := (ar.map fun x =>
                (calculate_file_coverage x.2 (lookup_log_sites lm x.1)).exceptions.total).sum
              covered := (ar.map fun x =>
                (calculate_file_coverage x.2 (lookup_log_sites lm x.1)).exceptions.covered).sum
              percentage := 0 }
          project_overall := CoverageMetrics.new
            ((ar.map fun x =>
                (calculate_file_coverage x.2 (lookup_log_sites lm x.1)).functions.total).sum +
              (ar.map fun x =>
                (calculate_file_coverage x.2 (lookup_log_sites lm x.1)).branches.total).sum +
              (ar.map fun x =>
                (calculate_file_coverage x.2 (lookup_log_sites lm x.1)).exceptions.total).sum)
            ((ar.map fun x =>
                (calculate_file_coverage x.2 (lookup_log_sites lm x.1)).functions.covered).sum +
              (ar.map fun x =>
                (calculate_file_coverage x.2 (lookup_log_sites lm x.1)).branches.covered).sum +
              (ar.map fun x =>
                (calculate_file_coverage x.2 (lookup_log_sites lm x.1)).exceptions.covered).sum) } := by
  unfold calculate_project_coverage
  rw [if_neg (by simpa [List.isEmpty_iff] using h)]
  rw [project_foldl_spec]
  simp [ProjectCoverage.rustDefault, CoverageMetrics.rustDefault]

/-- The spec's metrics invariant (§3, §8): `covered ≤ total` and the
percentage is the one the `(covered, total)` pair determines. -/
def metrics_invariant (m : CoverageMetrics) : Prop :=
  m.covered ≤ m.total ∧
    m.percentage = if m.total = 0 then (100 : ℚ) else (m.covered : ℚ) / (m.total : ℚ) * 100

theorem metrics_invariant_new (total covered : Nat) (h : covered ≤ total) :
    metrics_invariant (CoverageMetrics.new total covered) := by
  unfold metrics_invariant CoverageMetrics.new
  refine ⟨h, ?_⟩
  dsimp only
  rcases Nat.eq_zero_or_pos total with ht | ht
  · simp [ht]
  · rw [if_pos ht, if_neg (by omega)]

theorem metrics_invariant_calculate_percentage (m : CoverageMetrics)
    (h : m.covered ≤ m.total) : metrics_invariant m.calculate_percentage := by
  unfold metrics_invariant CoverageMetrics.calculate_percentage
  refine ⟨h, ?_⟩
  dsimp only
  rcases Nat.eq_zero_or_pos m.total with ht | ht
  · simp [ht]
  · rw [if_pos ht, if_neg (by omega)]

theorem calculate_file_coverage_invariant (file_ast : FileAstInfo)
    (log_sites : List LogCallSite) :
    metrics_invariant (calculate_file_coverage file_ast log_sites).functions ∧
    metrics_invariant (calculate_file_coverage file_ast log_sites).branches ∧
    metrics_invariant (calculate_file_coverage file_ast log_sites).exceptions ∧
    metrics_invariant (calculate_file_coverage file_ast log_sites).overall := by
  unfold calculate_file_coverage
  dsimp only
  refine ⟨metrics_invariant_calculate_percentage _ (List.countP_le_length _),
    metrics_invariant_calculate_percentage _ (List.countP_le_length _),
    metrics_invariant_calculate_percentage _ (List.countP_le_length _),
    metrics_invariant_new _ _ ?_⟩
  simp only [calculate_percentage_total, calculate_percentage_covered]
  have h1 := List.countP_le_length
    (l := file_ast.functions.filter fun f => f.has_body)
    (p := fun f => log_sites.any (function_site_matches f))
  have h2 := List.countP_le_length (l := file_ast.branches)
    (p := fun b => log_sites.any (branch_site_matches b))
  have h3 := List.countP_le_length (l := file_ast.exceptions)
    (p := fun e => log_sites.any (exception_site_matches e))
  omega

/-- C3 counterexample: the claim quantifies over every `CoverageMetrics`
produced by the coverage calculator, but the `ProjectCoverage` returned
for an empty input map carries `Default`-valued metrics with `total = 0`
and `percentage = 0`, not `100`, and these were produced by neither
`CoverageMetrics::new` nor `calculate_percentage`. -/
theorem claim_C3_metrics_counterexample :
    calculate_project_coverage [] [] = Except.ok ProjectCoverage.rustDefault ∧
    ProjectCoverage.rustDefault.total_functions.total = 0 ∧
    ProjectCoverage.rustDefault.total_functions.percentage ≠ 100 :=
  ⟨rfl, rfl, by norm_num [ProjectCoverage.rustDefault, CoverageMetrics.rustDefault]⟩

/-- C3 (amended): every `CoverageMetrics` that passes through
`CoverageMetrics::new` or `calculate_percentage` — i.e. all metrics of
every `PerFileCoverage`, and all four project metrics whenever the input
map is non-empty — satisfies `covered ≤ total` with the percentage
recomputed from the current `(covered, total)` pair
(`covered/total*100`, and `100` when `total = 0`); the sole exception is
the empty-input early return, whose `Default`-valued metrics carry
percentage `0`. -/
theorem claim_C3_metrics_invariant :
    (∀ (file_ast : FileAstInfo) (log_sites : List LogCallSite),
      metrics_invariant (calculate_file_coverage file_ast log_sites).functions ∧
      metrics_invariant (calculate_file_coverage file_ast log_sites).branches ∧
      metrics_invariant (calculate_file_coverage file_ast log_sites).exceptions ∧
      metrics_invariant (calculate_file_coverage file_ast log_sites).overall) ∧
    (∀ (ar : List (String × FileAstInfo)) (lm : List (String × List LogCallSite)),
      ar ≠ [] →
      ∃ pc, calculate_project_coverage ar lm = Except.ok pc ∧
        metrics_invariant pc.total_functions ∧
        metrics_invariant pc.total_branches ∧
        metrics_invariant pc.total_exceptions ∧
        metrics_invariant pc.project_overall ∧
        ∀ f ∈ pc.files,
          metrics_invariant f.functions ∧ metrics_invariant f.branches ∧
          metrics_invariant f.exceptions ∧ metrics_invariant f.overall) ∧
    (calculate_project_coverage [] [] = Except.ok ProjectCoverage.rustDefault ∧
      ProjectCoverage.rustDefault.total_functions.percentage = 0) := by
  refine ⟨calculate_file_coverage_invariant, ?_, rfl, rfl⟩
  intro ar lm h
  refine ⟨_, calculate_project_coverage_nonempty ar lm h, ?_, ?_, ?_, ?_, ?_⟩
  · exact metrics_invariant_calculate_percentage _
      (List.sum_le_sum fun x _ => (calculate_file_coverage_invariant x.2 _).1.1)
  · exact metrics_invariant_calculate_percentage _
      (List.sum_le_sum fun x _ => (calculate_file_coverage_invariant x.2 _).2.1.1)
  · exact metrics_invariant_calculate_percentage _
      (List.sum_le_sum fun x _ => (calculate_file_coverage_invariant x.2 _).2.2.1.1)
  · refine metrics_invariant_new _ _ ?_
    have h1 := List.sum_le_sum (l := ar)
      (f := fun x => (calculate_file_coverage x.2 (lookup_log_sites lm x.1)).functions.covered)
      (g := fun x => (calculate_file_coverage x.2 (lookup_log_sites lm x.1)).functions.total)
      (fun x _ => (calculate_file_coverage_invariant x.2 _).1.1)
    have h2 := List.sum_le_sum (l := ar)
      (f := fun x => (calculate_file_coverage x.2 (lookup_log_sites lm x.1)).branches.covered)
      (g := fun x => (calculate_file_coverage x.2 (lookup_log_sites lm x.1)).branches.total)
      (fun x _ => (calculate_file_coverage_invariant x.2 _).2.1.1)
    have h3 := List.sum_le_sum (l := ar)
      (f := fun x => (calculate_file_coverage x.2 (lookup_log_sites lm x.1)).exceptions.covered)
      (g := fun x => (calculate_file_coverage x.2 (lookup_log_sites lm x.1)).exceptions.total)
      (fun x _ => (calculate_file_coverage_invariant x.2 _).2.2.1.1)
    omega
  · intro f hf
    dsimp only at hf
    rw [List.mem_map] at hf
    obtain ⟨x, _, rfl⟩ := hf
    exact calculate_file_coverage_invariant x.2 _

/-- Witness for C3 (amended) at a concrete non-empty input: one file
with no structural items. -/
theorem claim_C3_metrics_invariant_witness :
    ((([("a.cpp", { file_path := "a.cpp", functions := [], branches := [], exceptions := [] })]) :
        List (String × FileAstInfo)) ≠ []) ∧
    ∃ pc, calculate_project_coverage
        [("a.cpp", { file_path := "a.cpp", functions := [], branches := [], exceptions := [] })]
        [] = Except.ok pc ∧
      metrics_invariant pc.total_functions ∧
      metrics_invariant pc.total_branches ∧
      metrics_invariant pc.total_exceptions ∧
      metrics_invariant pc.project_overall ∧
      ∀ f ∈ pc.files,
        metrics_invariant f.functions ∧ metrics_invariant f.branches ∧
        metrics_invariant f.exceptions ∧ metrics_invariant f.overall :=
  ⟨by simp, claim_C3_metrics_invariant.2.1
    [("a.cpp", { file_path := "a.cpp", functions := [], branches := [], exceptions := [] })]
    [] (by simp)⟩

/-- C4 (code bug): on an empty map of per-file AST results,
`calculate_project_coverage` returns the `Default` `ProjectCoverage`
without error — its files list is empty and all four metrics have total
`0` and covered `0` as claimed, but their percentage is the `f64`
default `0.0`, not the `100.0` that the spec and the code's own
`CoverageMetrics::new` convention prescribe for an empty population. -/
theorem claim_C4_empty_project :
    calculate_project_coverage [] [] = Except.ok ProjectCoverage.rustDefault ∧
    ProjectCoverage.rustDefault.files = [] ∧
    ProjectCoverage.rustDefault.total_functions.total = 0 ∧
    ProjectCoverage.rustDefault.total_functions.covered = 0 ∧
    ProjectCoverage.rustDefault.total_branches.total = 0 ∧
    ProjectCoverage.rustDefault.total_branches.covered = 0 ∧
    ProjectCoverage.rustDefault.total_exceptions.total = 0 ∧
    ProjectCoverage.rustDefault.total_exceptions.covered = 0 ∧
    ProjectCoverage.rustDefault.project_overall.total = 0 ∧
    ProjectCoverage.rustDefault.project_overall.covered = 0 ∧
    ProjectCoverage.rustDefault.total_functions.percentage = 0 ∧
    ProjectCoverage.rustDefault.total_branches.percentage = 0 ∧
    ProjectCoverage.rustDefault.total_exceptions.percentage = 0 ∧
    ProjectCoverage.rustDefault.project_overall.percentage = 0 ∧
    ((0 : ℚ) ≠ 100) ∧
    (CoverageMetrics.new 0 0).percentage = 100 :=
  ⟨rfl, rfl, rfl, rfl, rfl, rfl, rfl, rfl, rfl, rfl, rfl, rfl, rfl, rfl,
    by norm_num, rfl⟩

/-- C5: for a non-empty input the project totals and covered counts for
functions, branches and exceptions are the sums of the per-file values,
and the project overall metric pools the three category sums (pooled
sums, not an average of percentages). -/
theorem claim_C5_summation_law (ar : List (String × FileAstInfo))
    (lm : List (String × List LogCallSite)) (h : ar ≠ []) :
    ∃ pc, calculate_project_coverage ar lm = Except.ok pc ∧
      pc.files = (ar.map fun x => calculate_file_coverage x.2 (lookup_log_sites lm x.1)) ∧
      pc.total_functions.total = (pc.files.map fun f => f.functions.total).sum ∧
      pc.total_functions.covered = (pc.files.map fun f => f.functions.covered).sum ∧
      pc.total_branches.total = (pc.files.map fun f => f.branches.total).sum ∧
      pc.total_branches.covered = (pc.files.map fun f => f.branches.covered).sum ∧
      pc.total_exceptions.total = (pc.files.map fun f => f.exceptions.total).sum ∧
      pc.total_exceptions.covered = (pc.files.map fun f => f.exceptions.covered).sum ∧
      pc.project_overall.total =
        pc.total_functions.total + pc.total_branches.total + pc.total_exceptions.total ∧
      pc.project_overall.covered =
        pc.total_functions.covered + pc.total_branches.covered + pc.total_exceptions.covered := by
  refine ⟨_, calculate_project_coverage_nonempty ar lm h, rfl, ?_⟩
  dsimp only
  simp only [calculate_percentage_total, calculate_percentage_covered, new_total, new_covered,
    List.map_map]
  trivial

/-- Witness for C5 at a concrete non-empty input. -/
theorem claim_C5_summation_law_witness :
    ((([("b.cpp", { file_path := "b.cpp", functions := [], branches := [], exceptions := [] })]) :
        List (String × FileAstInfo)) ≠ []) ∧
    ∃ pc, calculate_project_coverage
        [("b.cpp", { file_path := "b.cpp", functions := [], branches := [], exceptions := [] })]
        [] = Except.ok pc ∧
      pc.files = ([("b.cpp",
          { file_path := "b.cpp", functions := [], branches := [], exceptions := [] })].map
        fun x => calculate_file_coverage x.2 (lookup_log_sites [] x.1)) ∧
      pc.total_functions.total = (pc.files.map fun f => f.functions.total).sum ∧
      pc.total_functions.covered = (pc.files.map fun f => f.functions.covered).sum ∧
      pc.total_branches.total = (pc.files.map fun f => f.branches.total).sum ∧
      pc.total_branches.covered = (pc.files.map fun f => f.branches.covered).sum ∧
      pc.total_exceptions.total = (pc.files.map fun f => f.exceptions.total).sum ∧
      pc.total_exceptions.covered = (pc.files.map fun f => f.exceptions.covered).sum ∧
      pc.project_overall.total =
        pc.total_functions.total + pc.total_branches.total + pc.total_exceptions.total ∧
      pc.project_overall.covered =
        pc.total_functions.covered + pc.total_branches.covered + pc.total_exceptions.covered :=
  ⟨by simp, claim_C5_summation_law
    [("b.cpp", { file_path := "b.cpp", functions := [], branches := [], exceptions := [] })]
    [] (by simp)⟩

/-- C6: the matching policy is evaluated in fixed priority order with
first match winning: when built-in global logging is enabled and the
callee name is in its function list, the classification is the built-in
global kind (`Qt`) — regardless of what the custom mapping contains —
and a matched call expression under an active function context pushes
exactly one `LogCallSite` before its children are visited. -/
theorem claim_C6_matching_priority :
    (∀ (config : Config) (callee_name : String),
      config.log_functions.qt.enabled = true →
      config.log_functions.qt.functions.contains callee_name = true →
      classify_call config callee_name =
        some (LogType.qt, qt_prefix_level callee_name)) ∧
    (∀ (config : Config) (ctx : LogVisitorContext) (parent_q : String)
        (isdef : Bool) (sp usr rs : String) (loc es ee : SourceLocation)
        (rt : String) (args : List CursorArg) (ts : String) (children : List Cursor)
        (lt : LogType) (ll : LogLevel),
      ctx.current_parent_function_qname = some parent_q →
      classify_call config rs = some (lt, ll) →
      visit_log_identifier_cursor config ctx
          (Cursor.node CursorKind.callExpr true isdef sp usr rs loc es ee rt args ts children) =
        { function_name := rs
          source_location := loc
          log_level := ll
          log_type := lt
          parent_function_qualified_name := parent_q
          containing_class_name := ctx.current_parent_class_name
          message_arguments := args.map fun a =>
            if a.spelling != "" then a.spelling else "<complex_arg>" } ::
          visit_log_list config ctx children) := by
  constructor
  · intro config callee_name h1 h2
    unfold classify_call
    rw [if_pos (show _ = true by rw [h1, h2]; rfl)]
  · intro config ctx parent_q isdef sp usr rs loc es ee rt args ts children lt ll hctx hcl
    rw [visit_log_identifier_cursor]
    simp only [if_pos rfl, if_true, log_node_action, Cursor.kind, Cursor.ref_spelling,
      Cursor.location, Cursor.args, hctx, hcl, List.singleton_append]

/-- Witness for C6: a configuration whose built-in-global list and a
custom level list both contain `qDebug`; the call is classified `Qt`
with level `Debug`, and a `qDebug` call expression inside function `f`
yields exactly the one call site. -/
theorem claim_C6_matching_priority_witness :
    classify_call
        { scan := { directories := [], excludes := [], file_types := [] }
          log_functions :=
            { qt := { enabled := true, functions := ["qDebug"], category_functions := [] }
              custom := { enabled := true, functions := [("debug", ["qDebug"])] } } }
        "qDebug" = some (LogType.qt, qt_prefix_level "qDebug") ∧
    visit_log_identifier_cursor
        { scan := { directories := [], excludes := [], file_types := [] }
          log_functions :=
            { qt := { enabled := true, functions := ["qDebug"], category_functions := [] }
              custom := { enabled := true, functions := [("debug", ["qDebug"])] } } }
        { current_parent_function_qname := some "c:@F@f#", current_parent_class_name := none }
        (Cursor.node CursorKind.callExpr true false "qDebug" "" "qDebug"
          { file_path := "a.cpp", line := 13, column := 5 }
          { file_path := "a.cpp", line := 13, column := 5 }
          { file_path := "a.cpp", line := 13, column := 20 }
          "" [] "" []) =
      [{ function_name := "qDebug"
         source_location := { file_path := "a.cpp", line := 13, column := 5 }
         log_level := LogLevel.debug
         log_type := LogType.qt
         parent_function_qualified_name := "c:@F@f#"
         containing_class_name := none
         message_arguments := [] }] := by
  constructor
  · exact claim_C6_matching_priority.1
      { scan := { directories := [], excludes := [], file_types := [] }
        log_functions :=
          { qt := { enabled := true, functions := ["qDebug"], category_functions := [] }
            custom := { enabled := true, functions := [("debug", ["qDebug"])] } } }
      "qDebug" rfl (by decide)
  · rw [claim_C6_matching_priority.2
      { scan := { directories := [], excludes := [], file_types := [] }
        log_functions :=
          { qt := { enabled := true, functions := ["qDebug"], category_functions := [] }
            custom := { enabled := true, functions := [("debug", ["qDebug"])] } } }
      { current_parent_function_qname := some "c:@F@f#", current_parent_class_name := none }
      "c:@F@f#" false "qDebug" "" "qDebug"
      { file_path := "a.cpp", line := 13, column := 5 }
      { file_path := "a.cpp", line := 13, column := 5 }
      { file_path := "a.cpp", line := 13, column := 20 }
      "" [] "" [] LogType.qt LogLevel.debug rfl (by decide)]
    rfl

theorem custom_scan_spec (mapping : List (String × List String)) (callee_name : String)
    (r : LogType × LogLevel) (h : custom_scan mapping callee_name = some r) :
    ∃ level_str func_names, (level_str, func_names) ∈ mapping ∧
      func_names.contains callee_name = true ∧
      r = (LogType.custom, level_from_tag level_str) := by
  induction mapping with
  | nil => simp [custom_scan] at h
  | cons e rest ih =>
    obtain ⟨level_str, func_names⟩ := e
    rw [custom_scan] at h
    by_cases hc : func_names.contains callee_name
    · rw [if_pos hc] at h
      exact ⟨level_str, func_names, List.mem_cons_self _ _, hc, (Option.some_inj.mp h).symm⟩
    · rw [if_neg hc] at h
      obtain ⟨l, ns, hmem, hcont, hr⟩ := ih h
      exact ⟨l, ns, List.mem_cons_of_mem _ hmem, hcont, hr⟩

/-- C7: a call matched through the custom level→name-list mapping (both
built-in rules failing, custom logging enabled) is classified `Custom`
with the level parsed from the matching entry's tag; the tag parse is
case-insensitive, accepts `warn` as a synonym for `Warning` and `error`
as a synonym for `Critical`, and yields `Unknown` on any tag outside the
recognized set. -/
theorem claim_C7_custom_level :
    (∀ (config : Config) (callee_name : String),
      (config.log_functions.qt.enabled &&
        config.log_functions.qt.functions.contains callee_name) = false →
      (config.log_functions.qt.enabled &&
        config.log_functions.qt.category_functions.contains callee_name) = false →
      config.log_functions.custom.enabled = true →
      classify_call config callee_name =
        custom_scan config.log_functions.custom.functions callee_name) ∧
    (∀ (mapping : List (String × List String)) (callee_name : String) (r : LogType × LogLevel),
      custom_scan mapping callee_name = some r →
      ∃ level_str func_names, (level_str, func_names) ∈ mapping ∧
        func_names.contains callee_name = true ∧
        r = (LogType.custom, level_from_tag level_str)) ∧
    (∀ s t : String, to_lowercase s = to_lowercase t → level_from_tag s = level_from_tag t) ∧
    (∀ s : String, to_lowercase s = "warn" → level_from_tag s = LogLevel.warning) ∧
    (∀ s : String, to_lowercase s = "error" → level_from_tag s = LogLevel.critical) ∧
    (∀ s : String,
      to_lowercase s ∉ ["debug", "info", "warning", "warn", "error", "critical", "fatal"] →
      level_from_tag s = LogLevel.unknown) := by
  refine ⟨?_, custom_scan_spec, ?_, ?_, ?_, ?_⟩
  · intro config callee_name h1 h2 h3
    unfold classify_call
    rw [if_neg (by rw [h1]; simp), if_neg (by rw [h2]; simp), if_pos h3]
  · intro s t h
    unfold level_from_tag
    rw [h]
  · intro s h
    unfold level_from_tag
    rw [h]
    decide
  · intro s h
    unfold level_from_tag
    rw [h]
    decide
  · intro s h
    unfold level_from_tag
    split <;> first
      | rfl
      | (rename_i heq; rw [heq] at h; simp at h)

/-- Witness for C7 at concrete inputs: with both built-in rules failing
and the mapping `[("WARN", ["mylog"])]`, the call `mylog` is matched by
`custom_scan`; the tag parses are exercised at `WARN`, `Warn`, `ERROR`
and `trace`. -/
theorem claim_C7_custom_level_witness :
    classify_call
        { scan := { directories := [], excludes := [], file_types := [] }
          log_functions :=
            { qt := { enabled := false, functions := [], category_functions := [] }
              custom := { enabled := true, functions := [("WARN", ["mylog"])] } } }
        "mylog" = custom_scan [("WARN", ["mylog"])] "mylog" ∧
    (∃ level_str func_names, (level_str, func_names) ∈ [("WARN", ["mylog"])] ∧
      func_names.contains "mylog" = true ∧
      ((LogType.custom, LogLevel.warning) : LogType × LogLevel) =
        (LogType.custom, level_from_tag level_str)) ∧
    level_from_tag "WARN" = level_from_tag "warn" ∧
    level_from_tag "Warn" = LogLevel.warning ∧
    level_from_tag "ERROR" = LogLevel.critical ∧
    level_from_tag "trace" = LogLevel.unknown := by
  refine ⟨?_, ?_, ?_, ?_, ?_, ?_⟩
  · exact claim_C7_custom_level.1
      { scan := { directories := [], excludes := [], file_types := [] }
        log_functions :=
          { qt := { enabled := false, functions := [], category_functions := [] }
            custom := { enabled := true, functions := [("WARN", ["mylog"])] } } }
      "mylog" (by decide) (by decide) rfl
  · exact claim_C7_custom_level.2.1 [("WARN", ["mylog"])] "mylog"
      (LogType.custom, LogLevel.warning) (by decide)
  · exact claim_C7_custom_level.2.2.1 "WARN" "warn" (by decide)
  · exact claim_C7_custom_level.2.2.2.1 "Warn" (by decide)
  · exact claim_C7_custom_level.2.2.2.2.1 "ERROR" (by decide)
  · exact claim_C7_custom_level.2.2.2.2.2 "trace" (by decide)

/-! ## Tree infrastructure for the context-threading invariants -/

mutual

/-- The qualified names of all main-file function/method definition
nodes in a subtree — exactly the nodes at which either visitor updates
its enclosing-function context. -/
def cursor_def_qnames : Cursor → List String
  | .node kind mf isdef sp usr _ _ _ _ _ _ _ children =>
    (if mf && isdef &&
        (kind == CursorKind.functionDecl || kind == CursorKind.cxxMethod) then
      [qualified_name_of sp usr]
    else []) ++ cursor_list_def_qnames children

def cursor_list_def_qnames : List Cursor → List String
  | [] => []
  | c :: rest => cursor_def_qnames c ++ cursor_list_def_qnames rest

end

theorem cursor_induction (motive : Cursor → Prop)
    (h : ∀ c : Cursor, (∀ c' ∈ c.children, motive c') → motive c) : ∀ c, motive c := by
  have key : ∀ (n : Nat) (c : Cursor), sizeOf c ≤ n → motive c := by
    intro n
    induction n with
    | zero =>
      intro c hc
      obtain ⟨k, mf, d, sp, usr, rs, loc, s, e, rt, args, ts, children⟩ := c
      simp [Cursor.node.sizeOf_spec] at hc
    | succ n ih =>
      intro c hc
      apply h
      intro c' hc'
      apply ih
      have h1 : sizeOf c' < sizeOf c.children := List.sizeOf_lt_of_mem hc'
      have h2 : sizeOf c.children < sizeOf c := by
        obtain ⟨k, mf, d, sp, usr, rs, loc, s, e, rt, args, ts, children⟩ := c
        simp [Cursor.node.sizeOf_spec, Cursor.children]
      omega
  intro c
  exact key (sizeOf c) c (Nat.le_refl _)

@[simp] theorem AstOut.empty_append (o : AstOut) : AstOut.empty.append o = o := by
  cases o; simp [AstOut.append, AstOut.empty]

@[simp] theorem AstOut.append_functions (a b : AstOut) :
    (a.append b).functions = a.functions ++ b.functions := rfl

@[simp] theorem AstOut.append_branches (a b : AstOut) :
    (a.append b).branches = a.branches ++ b.branches := rfl

@[simp] theorem AstOut.append_exceptions (a b : AstOut) :
    (a.append b).exceptions = a.exceptions ++ b.exceptions := rfl

/-- The log visitor's node action only ever emits a call site whose
parent qualified name is the currently active enclosing-function
context. -/
theorem log_node_action_sites (config : Config) (ctx : LogVisitorContext) (c : Cursor)
    (site : LogCallSite) (h : site ∈ (log_node_action config ctx c).1) :
    site.parent_function_qualified_name ∈ ctx.current_parent_function_qname.toList := by
  unfold log_node_action at h
  rcases hk : c.kind <;> rw [hk] at h <;> simp at h
  case functionDecl => split at h <;> simp at h
  case cxxMethod => split at h <;> simp at h
  case callExpr =>
    rcases hq : ctx.current_parent_function_qname with _ | q <;> rw [hq] at h
    · simp at h
    · rcases hcl : classify_call config c.ref_spelling with _ | ⟨t, l⟩ <;> rw [hcl] at h
      · simp at h
      · simp at h
        subst h
        simp [hq]

/-- The log visitor's node action either keeps the enclosing-function
context or (at a function/method definition) sets it to that
definition's qualified name. -/
theorem log_node_action_ctx (config : Config) (ctx : LogVisitorContext) (c : Cursor) :
    (log_node_action config ctx c).2.current_parent_function_qname =
        ctx.current_parent_function_qname ∨
      (c.is_definition = true ∧
        (c.kind = CursorKind.functionDecl ∨ c.kind = CursorKind.cxxMethod) ∧
        (log_node_action config ctx c).2.current_parent_function_qname =
          some (qualified_name_of c.spelling c.usr)) := by
  unfold log_node_action
  rcases hk : c.kind <;> simp [hk]
  case functionDecl =>
    rcases hd : c.is_definition <;> simp [hd]
  case cxxMethod =>
    rcases hd : c.is_definition <;> simp [hd]
  case callExpr =>
    rcases hq : ctx.current_parent_function_qname with _ | q <;> simp [hq]
    rcases hcl : classify_call config c.ref_spelling with _ | ⟨t, l⟩ <;> simp [hcl] <;>
      exact hq

theorem visit_log_list_parent_mem (config : Config) (cs : List Cursor)
    (hrec : ∀ c ∈ cs, ∀ (ctx : LogVisitorContext) (site : LogCallSite),
      site ∈ visit_log_identifier_cursor config ctx c →
      site.parent_function_qualified_name ∈
        ctx.current_parent_function_qname.toList ++ cursor_def_qnames c)
    (ctx : LogVisitorContext) (site : LogCallSite)
    (h : site ∈ visit_log_list config ctx cs) :
    site.parent_function_qualified_name ∈
      ctx.current_parent_function_qname.toList ++ cursor_list_def_qnames cs := by
  induction cs with
  | nil =>
    rw [visit_log_list] at h
    simp at h
  | cons c rest ih =>
    rw [visit_log_list, List.mem_append] at h
    rw [cursor_list_def_qnames]
    rcases h with h | h
    · have := hrec c (by simp) ctx site h
      simp only [List.mem_append] at this ⊢
      tauto
    · have := ih (fun c hc => hrec c (List.mem_cons_of_mem _ hc)) h
      simp only [List.mem_append] at this ⊢
      tauto

/-- Every call site the log visitor emits carries, as its parent, either
the enclosing-function context it started from or the qualified name of
a function definition inside the visited subtree. -/
theorem visit_log_parent_mem (config : Config) :
    ∀ (c : Cursor) (ctx : LogVisitorContext) (site : LogCallSite),
      site ∈ visit_log_identifier_cursor config ctx c →
      site.parent_function_qualified_name ∈
        ctx.current_parent_function_qname.toList ++ cursor_def_qnames c := by
  intro c
  induction c using cursor_induction with
  | _ c hrec =>
    intro ctx site hmem
    obtain ⟨kind, mf, isdef, sp, usr, rs, loc, es, ee, rt, args, ts, children⟩ := c
    simp only [Cursor.children] at hrec
    rw [visit_log_identifier_cursor] at hmem
    rw [cursor_def_qnames]
    cases mf with
    | false =>
      simp only [Bool.false_eq_true, if_false] at hmem
      have := visit_log_list_parent_mem config children (fun c hc => hrec c hc) ctx site hmem
      simp only [List.mem_append] at this ⊢
      simp only [Bool.false_and, Bool.if_false_left]
      tauto
    | true =>
      simp only [if_true] at hmem
      rw [List.mem_append] at hmem
      rcases hmem with hmem | hmem
      · have := log_node_action_sites config ctx _ site hmem
        simp only [List.mem_append]
        left
        exact this
      · have hstep := visit_log_list_parent_mem config children (fun c hc => hrec c hc)
          _ site hmem
        rcases log_node_action_ctx config ctx
            (Cursor.node kind true isdef sp usr rs loc es ee rt args ts children) with
          heq | ⟨hdef, hkind, heq⟩
        · rw [heq] at hstep
          simp only [List.mem_append] at hstep ⊢
          tauto
        · rw [heq] at hstep
          simp only [Cursor.is_definition] at hdef
          simp only [Cursor.kind] at hkind
          subst hdef
          have hkind' : (kind == CursorKind.functionDecl || kind == CursorKind.cxxMethod) =
              true := by
            rcases hkind with hkind | hkind <;> subst hkind <;> rfl
          simp only [Cursor.spelling, Cursor.usr] at hstep
          simp only [hkind', Bool.true_and, Bool.and_true, if_true]
          simp only [Option.toList_some, List.mem_append, List.mem_singleton] at hstep ⊢
          tauto

theorem ast_branch_action_mem (ctx : AstVisitorContext) (c : Cursor) (ty : String)
    (b : BranchInfo) (h : b ∈ (ast_branch_action ctx c ty).branches) :
    b.parent_function_qualified_name ∈ ctx.current_function_qname.toList := by
  unfold ast_branch_action at h
  rcases hq : ctx.current_function_qname with _ | q <;> rw [hq] at h <;>
    simp [AstOut.empty] at h
  subst h
  simp [hq]

@[simp] theorem ast_branch_action_functions (ctx : AstVisitorContext) (c : Cursor)
    (ty : String) : (ast_branch_action ctx c ty).functions = [] := by
  unfold ast_branch_action
  cases ctx.current_function_qname <;> rfl

@[simp] theorem ast_branch_action_exceptions (ctx : AstVisitorContext) (c : Cursor)
    (ty : String) : (ast_branch_action ctx c ty).exceptions = [] := by
  unfold ast_branch_action
  cases ctx.current_function_qname <;> rfl

@[simp] theorem ast_exception_action_functions (ctx : AstVisitorContext) (c : Cursor)
    (ty : String) (ct : Option String) : (ast_exception_action ctx c ty ct).functions = [] := by
  unfold ast_exception_action
  cases ctx.current_function_qname <;> rfl

@[simp] theorem ast_exception_action_branches (ctx : AstVisitorContext) (c : Cursor)
    (ty : String) (ct : Option String) : (ast_exception_action ctx c ty ct).branches = [] := by
  unfold ast_exception_action
  cases ctx.current_function_qname <;> rfl

theorem ast_exception_action_mem (ctx : AstVisitorContext) (c : Cursor) (ty : String)
    (ct : Option String) (e : ExceptionInfo)
    (h : e ∈ (ast_exception_action ctx c ty ct).exceptions) :
    e.parent_function_qualified_name ∈ ctx.current_function_qname.toList := by
  unfold ast_exception_action at h
  rcases hq : ctx.current_function_qname with _ | q <;> rw [hq] at h <;>
    simp [AstOut.empty] at h
  subst h
  simp [hq]

theorem ast_node_action_branches (ctx : AstVisitorContext) (c : Cursor)
    (b : BranchInfo) (h : b ∈ (ast_node_action ctx c).1.branches) :
    b.parent_function_qualified_name ∈ ctx.current_function_qname.toList := by
  unfold ast_node_action at h
  split at h <;>
    solve
      | simp [AstOut.empty] at h
      | exact ast_branch_action_mem ctx c _ b h
      | (split at h <;> simp [AstOut.empty] at h)

theorem ast_node_action_exceptions (ctx : AstVisitorContext) (c : Cursor)
    (e : ExceptionInfo) (h : e ∈ (ast_node_action ctx c).1.exceptions) :
    e.parent_function_qualified_name ∈ ctx.current_function_qname.toList := by
  unfold ast_node_action at h
  split at h <;>
    solve
      | simp [AstOut.empty] at h
      | exact ast_exception_action_mem ctx c _ _ e h
      | (split at h <;> simp [AstOut.empty] at h)

theorem ast_node_action_functions (ctx : AstVisitorContext) (c : Cursor)
    (fi : FunctionInfo) (h : fi ∈ (ast_node_action ctx c).1.functions) :
    fi.has_body = true := by
  unfold ast_node_action at h
  split at h <;>
    solve
      | simp [AstOut.empty] at h
      | (split at h <;> simp [AstOut.empty] at h <;> (subst h; rfl))

theorem ast_node_action_ctx (ctx : AstVisitorContext) (c : Cursor) :
    (ast_node_action ctx c).2.current_function_qname = ctx.current_function_qname ∨
      (c.is_definition = true ∧
        (c.kind = CursorKind.functionDecl ∨ c.kind = CursorKind.cxxMethod) ∧
        (ast_node_action ctx c).2.current_function_qname =
          some (qualified_name_of c.spelling c.usr)) := by
  unfold ast_node_action
  rcases hk : c.kind <;> simp [hk]
  case functionDecl => rcases hd : c.is_definition <;> simp [hd]
  case cxxMethod => rcases hd : c.is_definition <;> simp [hd]

theorem visit_cursor_list_branches (cs : List Cursor)
    (hrec : ∀ c ∈ cs, ∀ (ctx : AstVisitorContext) (b : BranchInfo),
      b ∈ (visit_cursor_recursive ctx c).branches →
      b.parent_function_qualified_name ∈
        ctx.current_function_qname.toList ++ cursor_def_qnames c)
    (ctx : AstVisitorContext) (b : BranchInfo)
    (h : b ∈ (visit_cursor_list ctx cs).branches) :
    b.parent_function_qualified_name ∈
      ctx.current_function_qname.toList ++ cursor_list_def_qnames cs := by
  induction cs with
  | nil =>
    rw [visit_cursor_list] at h
    simp [AstOut.empty] at h
  | cons c rest ih =>
    rw [visit_cursor_list] at h
    rw [AstOut.append_branches, List.mem_append] at h
    rw [cursor_list_def_qnames]
    rcases h with h | h
    · have := hrec c (by simp) ctx b h
      simp only [List.mem_append] at this ⊢
      tauto
    · have := ih (fun c hc => hrec c (List.mem_cons_of_mem _ hc)) h
      simp only [List.mem_append] at this ⊢
      tauto

theorem visit_cursor_branches :
    ∀ (c : Cursor) (ctx : AstVisitorContext) (b : BranchInfo),
      b ∈ (visit_cursor_recursive ctx c).branches →
      b.parent_function_qualified_name ∈
        ctx.current_function_qname.toList ++ cursor_def_qnames c := by
  intro c
  induction c using cursor_induction with
  | _ c hrec =>
    intro ctx b hmem
    obtain ⟨kind, mf, isdef, sp, usr, rs, loc, es, ee, rt, args, ts, children⟩ := c
    simp only [Cursor.children] at hrec
    rw [visit_cursor_recursive] at hmem
    rw [cursor_def_qnames]
    cases mf with
    | false =>
      simp only [Bool.false_eq_true, if_false] at hmem
      have := visit_cursor_list_branches children (fun c hc => hrec c hc) ctx b hmem
      simp only [List.mem_append] at this ⊢
      simp only [Bool.false_and, Bool.if_false_left]
      tauto
    | true =>
      simp only [if_true] at hmem
      rw [AstOut.append_branches, List.mem_append] at hmem
      rcases hmem with hmem | hmem
      · have := ast_node_action_branches ctx _ b hmem
        simp only [List.mem_append]
        left
        exact this
      · have hstep := visit_cursor_list_branches children (fun c hc => hrec c hc) _ b hmem
        rcases ast_node_action_ctx ctx
            (Cursor.node kind true isdef sp usr rs loc es ee rt args ts children) with
          heq | ⟨hdef, hkind, heq⟩
        · rw [heq] at hstep
          simp only [List.mem_append] at hstep ⊢
          tauto
        · rw [heq] at hstep
          simp only [Cursor.is_definition] at hdef
          simp only [Cursor.kind] at hkind
          subst hdef
          have hkind' : (kind == CursorKind.functionDecl || kind == CursorKind.cxxMethod) =
              true := by
            rcases hkind with hkind | hkind <;> subst hkind <;> rfl
          simp only [Cursor.spelling, Cursor.usr] at hstep
          simp only [hkind', Bool.true_and, Bool.and_true, if_true]
          simp only [Option.toList_some, List.mem_append, List.mem_singleton] at hstep ⊢
          tauto

theorem visit_cursor_list_exceptions (cs : List Cursor)
    (hrec : ∀ c ∈ cs, ∀ (ctx : AstVisitorContext) (e : ExceptionInfo),
      e ∈ (visit_cursor_recursive ctx c).exceptions →
      e.parent_function_qualified_name ∈
        ctx.current_function_qname.toList ++ cursor_def_qnames c)
    (ctx : AstVisitorContext) (e : ExceptionInfo)
    (h : e ∈ (visit_cursor_list ctx cs).exceptions) :
    e.parent_function_qualified_name ∈
      ctx.current_function_qname.toList ++ cursor_list_def_qnames cs := by
  induction cs with
  | nil =>
    rw [visit_cursor_list] at h
    simp [AstOut.empty] at h
  | cons c rest ih =>
    rw [visit_cursor_list] at h
    rw [AstOut.append_exceptions, List.mem_append] at h
    rw [cursor_list_def_qnames]
    rcases h with h | h
    · have := hrec c (by simp) ctx e h
      simp only [List.mem_append] at this ⊢
      tauto
    · have := ih (fun c hc => hrec c (List.mem_cons_of_mem _ hc)) h
      simp only [List.mem_append] at this ⊢
      tauto

theorem visit_cursor_exceptions :
    ∀ (c : Cursor) (ctx : AstVisitorContext) (e : ExceptionInfo),
      e ∈ (visit_cursor_recursive ctx c).exceptions →
      e.parent_function_qualified_name ∈
        ctx.current_function_qname.toList ++ cursor_def_qnames c := by
  intro c
  induction c using cursor_induction with
  | _ c hrec =>
    intro ctx e hmem
    obtain ⟨kind, mf, isdef, sp, usr, rs, loc, es, ee, rt, args, ts, children⟩ := c
    simp only [Cursor.children] at hrec
    rw [visit_cursor_recursive] at hmem
    rw [cursor_def_qnames]
    cases mf with
    | false =>
      simp only [Bool.false_eq_true, if_false] at hmem
      have := visit_cursor_list_exceptions children (fun c hc => hrec c hc) ctx e hmem
      simp only [List.mem_append] at this ⊢
      simp only [Bool.false_and, Bool.if_false_left]
      tauto
    | true =>
      simp only [if_true] at hmem
      rw [AstOut.append_exceptions, List.mem_append] at hmem
      rcases hmem with hmem | hmem
      · have := ast_node_action_exceptions ctx _ e hmem
        simp only [List.mem_append]
        left
        exact this
      · have hstep := visit_cursor_list_exceptions children (fun c hc => hrec c hc) _ e hmem
        rcases ast_node_action_ctx ctx
            (Cursor.node kind true isdef sp usr rs loc es ee rt args ts children) with
          heq | ⟨hdef, hkind, heq⟩
        · rw [heq] at hstep
          simp only [List.mem_append] at hstep ⊢
          tauto
        · rw [heq] at hstep
          simp only [Cursor.is_definition] at hdef
          simp only [Cursor.kind] at hkind
          subst hdef
          have hkind' : (kind == CursorKind.functionDecl || kind == CursorKind.cxxMethod) =
              true := by
            rcases hkind with hkind | hkind <;> subst hkind <;> rfl
          simp only [Cursor.spelling, Cursor.usr] at hstep
          simp only [hkind', Bool.true_and, Bool.and_true, if_true]
          simp only [Option.toList_some, List.mem_append, List.mem_singleton] at hstep ⊢
          tauto

theorem visit_cursor_list_has_body (cs : List Cursor)
    (hrec : ∀ c ∈ cs, ∀ (ctx : AstVisitorContext) (fi : FunctionInfo),
      fi ∈ (visit_cursor_recursive ctx c).functions → fi.has_body = true)
    (ctx : AstVisitorContext) (fi : FunctionInfo)
    (h : fi ∈ (visit_cursor_list ctx cs).functions) : fi.has_body = true := by
  induction cs with
  | nil =>
    rw [visit_cursor_list] at h
    simp [AstOut.empty] at h
  | cons c rest ih =>
    rw [visit_cursor_list] at h
    rw [AstOut.append_functions, List.mem_append] at h
    rcases h with h | h
    · exact hrec c (by simp) ctx fi h
    · exact ih (fun c hc => hrec c (List.mem_cons_of_mem _ hc)) h

/-- Every `FunctionInfo` the structural extractor emits has
`has_body = true`. -/
theorem visit_cursor_has_body :
    ∀ (c : Cursor) (ctx : AstVisitorContext) (fi : FunctionInfo),
      fi ∈ (visit_cursor_recursive ctx c).functions → fi.has_body = true := by
  intro c
  induction c using cursor_induction with
  | _ c hrec =>
    intro ctx fi hmem
    obtain ⟨kind, mf, isdef, sp, usr, rs, loc, es, ee, rt, args, ts, children⟩ := c
    simp only [Cursor.children] at hrec
    rw [visit_cursor_recursive] at hmem
    cases mf with
    | false =>
      simp only [Bool.false_eq_true, if_false] at hmem
      exact visit_cursor_list_has_body children (fun c hc => hrec c hc) ctx fi hmem
    | true =>
      simp only [if_true] at hmem
      rw [AstOut.append_functions, List.mem_append] at hmem
      rcases hmem with hmem | hmem
      · exact ast_node_action_functions ctx _ fi hmem
      · exact visit_cursor_list_has_body children (fun c hc => hrec c hc) _ fi hmem

/-- C8: both visitors require an active enclosing-function context — a
call expression met with no function context emits no `LogCallSite`, a
branch or exception construct met with no function context emits no
`BranchInfo`/`ExceptionInfo`, and consequently every record in a file's
results carries a parent qualified name taken from some function
definition in the visited tree. -/
theorem claim_C8_function_context_required :
    (∀ (config : Config) (cls : Option String) (isdef : Bool) (sp usr rs : String)
        (loc es ee : SourceLocation) (rt : String) (args : List CursorArg) (ts : String)
        (children : List Cursor),
      visit_log_identifier_cursor config
          { current_parent_function_qname := none, current_parent_class_name := cls }
          (Cursor.node CursorKind.callExpr true isdef sp usr rs loc es ee rt args ts children) =
        visit_log_list config
          { current_parent_function_qname := none, current_parent_class_name := cls }
          children) ∧
    (∀ (cls : Option String) (kind : CursorKind) (isdef : Bool) (sp usr rs : String)
        (loc es ee : SourceLocation) (rt : String) (args : List CursorArg) (ts : String)
        (children : List Cursor),
      (kind = CursorKind.ifStmt ∨ kind = CursorKind.switchStmt ∨ kind = CursorKind.caseStmt ∨
        kind = CursorKind.defaultStmt ∨ kind = CursorKind.forStmt ∨
        kind = CursorKind.whileStmt ∨ kind = CursorKind.doStmt ∨
        kind = CursorKind.cxxTryStmt ∨ kind = CursorKind.cxxCatchStmt) →
      visit_cursor_recursive
          { current_function_qname := none, current_class_name := cls }
          (Cursor.node kind true isdef sp usr rs loc es ee rt args ts children) =
        visit_cursor_list
          { current_function_qname := none, current_class_name := cls } children) ∧
    (∀ (config : Config) (pf : ParsedFile) (sites : List LogCallSite),
      identify_log_calls_in_file config pf = Except.ok sites →
      ∀ site ∈ sites,
        site.parent_function_qualified_name ∈ cursor_list_def_qnames pf.top_level) ∧
    (∀ (pf : ParsedFile) (fa : FileAstInfo),
      parse_and_visit_file pf = Except.ok fa →
      (∀ b ∈ fa.branches,
        b.parent_function_qualified_name ∈ cursor_list_def_qnames pf.top_level) ∧
      (∀ e ∈ fa.exceptions,
        e.parent_function_qualified_name ∈ cursor_list_def_qnames pf.top_level)) := by
  refine ⟨?_, ?_, ?_, ?_⟩
  · intro config cls isdef sp usr rs loc es ee rt args ts children
    rfl
  · intro cls kind isdef sp usr rs loc es ee rt args ts children hkind
    rcases hkind with h | h | h | h | h | h | h | h | h <;> subst h <;> rfl
  · intro config pf sites h site hs
    unfold identify_log_calls_in_file at h
    split at h
    · simp at h
    · rw [Except.ok.injEq] at h
      subst h
      have := visit_log_list_parent_mem config pf.top_level
        (fun c _ => visit_log_parent_mem config c)
        { current_parent_function_qname := none, current_parent_class_name := none } site hs
      simpa using this
  · intro pf fa h
    unfold parse_and_visit_file at h
    split at h
    · simp at h
    · rw [Except.ok.injEq] at h
      subst h
      constructor
      · intro b hb
        have := visit_cursor_list_branches pf.top_level
          (fun c _ => visit_cursor_branches c)
          { current_function_qname := none, current_class_name := none } b hb
        simpa using this
      · intro e he
        have := visit_cursor_list_exceptions pf.top_level
          (fun c _ => visit_cursor_exceptions c)
          { current_function_qname := none, current_class_name := none } e he
        simpa using this

/-- A sample configuration for the witnesses: built-in global logging
enabled with `qDebug`, custom logging enabled with one level. -/
def sample_config : Config :=
  { scan := { directories := [], excludes := [], file_types := [] }
    log_functions :=
      { qt := { enabled := true, functions := ["qDebug"], category_functions := [] }
        custom := { enabled := true, functions := [("debug", ["fmDebug"])] } } }

/-- A sample `qDebug()` call-expression cursor at line 13. -/
def sample_call_node : Cursor :=
  Cursor.node CursorKind.callExpr true false "qDebug" "" "qDebug"
    { file_path := "w.cpp", line := 13, column := 5 }
    { file_path := "w.cpp", line := 13, column := 5 }
    { file_path := "w.cpp", line := 13, column := 20 }
    "" [] "" []

/-- A sample `if` statement cursor spanning lines 12-14. -/
def sample_if_node : Cursor :=
  Cursor.node CursorKind.ifStmt true false "" "" ""
    { file_path := "w.cpp", line := 12, column := 3 }
    { file_path := "w.cpp", line := 12, column := 3 }
    { file_path := "w.cpp", line := 14, column := 3 }
    "" [] "" [sample_call_node]

/-- A sample function definition cursor for `f` spanning lines 10-20,
containing the `if` (which contains the call). -/
def sample_fn_node : Cursor :=
  Cursor.node CursorKind.functionDecl true true "f" "c:@F@f#" ""
    { file_path := "w.cpp", line := 10, column := 1 }
    { file_path := "w.cpp", line := 10, column := 1 }
    { file_path := "w.cpp", line := 20, column := 1 }
    "void" [] "" [sample_if_node]

/-- A sample parsed file holding just the function `f`. -/
def sample_file : ParsedFile :=
  { path := "w.cpp", diagnostics := [], top_level := [sample_fn_node] }

/-- Witness for C8 at concrete inputs: a top-level call expression and a
top-level `if` produce nothing of their own, and in `sample_file` the
one identified call site and the one extracted branch both carry the
qualified name of the enclosing definition `f`. -/
theorem claim_C8_function_context_required_witness :
    (visit_log_identifier_cursor sample_config
        { current_parent_function_qname := none, current_parent_class_name := none }
        (Cursor.node CursorKind.callExpr true false "qDebug" "" "qDebug"
          { file_path := "w.cpp", line := 1, column := 1 }
          { file_path := "w.cpp", line := 1, column := 1 }
          { file_path := "w.cpp", line := 1, column := 9 } "" [] "" []) =
      visit_log_list sample_config
        { current_parent_function_qname := none, current_parent_class_name := none } []) ∧
    (visit_cursor_recursive
        { current_function_qname := none, current_class_name := none }
        (Cursor.node CursorKind.ifStmt true false "" "" ""
          { file_path := "w.cpp", line := 1, column := 1 }
          { file_path := "w.cpp", line := 1, column := 1 }
          { file_path := "w.cpp", line := 3, column := 1 } "" [] "" []) =
      visit_cursor_list { current_function_qname := none, current_class_name := none } []) ∧
    (∀ site ∈ [{ function_name := "qDebug"
                 source_location := { file_path := "w.cpp", line := 13, column := 5 }
                 log_level := LogLevel.debug
                 log_type := LogType.qt
                 parent_function_qualified_name := "c:@F@f#"
                 containing_class_name := none
                 message_arguments := ([] : List String) }],
      LogCallSite.parent_function_qualified_name site ∈
        cursor_list_def_qnames sample_file.top_level) := by
  refine ⟨?_, ?_, ?_⟩
  · exact claim_C8_function_context_required.1 sample_config none false "qDebug" "" "qDebug"
      { file_path := "w.cpp", line := 1, column := 1 }
      { file_path := "w.cpp", line := 1, column := 1 }
      { file_path := "w.cpp", line := 1, column := 9 } "" [] "" []
  · exact claim_C8_function_context_required.2.1 none CursorKind.ifStmt false "" "" ""
      { file_path := "w.cpp", line := 1, column := 1 }
      { file_path := "w.cpp", line := 1, column := 1 }
      { file_path := "w.cpp", line := 3, column := 1 } "" [] "" [] (Or.inl rfl)
  · exact claim_C8_function_context_required.2.2.1 sample_config sample_file _ rfl

theorem parse_and_visit_file_fatal (pf : ParsedFile)
    (h : pf.diagnostics.any is_fatal_severity = true) :
    parse_and_visit_file pf = Except.error ("Fatal parsing errors in " ++ pf.path) := by
  unfold parse_and_visit_file
  rw [if_pos h]

theorem analyze_foldl_spec (files : List ParsedFile) (acc : List (String × FileAstInfo)) :
    files.foldl
        (fun acc pf =>
          match parse_and_visit_file pf with
          | Except.ok file_ast_info => acc ++ [(pf.path, file_ast_info)]
          | Except.error _ => acc) acc =
      acc ++ files.filterMap (fun pf =>
        (parse_and_visit_file pf).toOption.map fun info => (pf.path, info)) := by
  induction files generalizing acc with
  | nil => simp
  | cons pf rest ih =>
    rw [List.foldl_cons, List.filterMap_cons]
    rcases hp : parse_and_visit_file pf with msg | info <;>
      simp [hp, ih, Except.toOption]

theorem analyze_files_results (files : List ParsedFile) :
    (analyze_files files).1 = files.filterMap fun pf =>
      (parse_and_visit_file pf).toOption.map fun info => (pf.path, info) := by
  unfold analyze_files
  dsimp only
  rw [analyze_foldl_spec]
  simp

/-- C9: a file whose front-end diagnostics contain an error/fatal entry
makes `parse_and_visit_file` return an error (no partial `FileAstInfo`);
`analyze_files` skips such files (its result map holds exactly the
successfully parsed files) yet itself always returns `Ok`, and a fatal
file's path (when no healthy file shares it) never appears among the
result keys. -/
theorem claim_C9_fatal_parse_policy :
    (∀ pf : ParsedFile, pf.diagnostics.any is_fatal_severity = true →
      parse_and_visit_file pf = Except.error ("Fatal parsing errors in " ++ pf.path)) ∧
    (∀ files : List ParsedFile, (analyze_files files).2 = Except.ok ()) ∧
    (∀ files : List ParsedFile,
      (analyze_files files).1 = files.filterMap fun pf =>
        (parse_and_visit_file pf).toOption.map fun info => (pf.path, info)) ∧
    (∀ (files : List ParsedFile) (pf : ParsedFile), pf ∈ files →
      pf.diagnostics.any is_fatal_severity = true →
      (∀ qf ∈ files, qf.path = pf.path → qf.diagnostics.any is_fatal_severity = true) →
      pf.path ∉ (analyze_files files).1.map Prod.fst) := by
  refine ⟨parse_and_visit_file_fatal, fun _ => rfl, analyze_files_results, ?_⟩
  intro files pf hmem hfatal hall hin
  rw [analyze_files_results, List.mem_map] at hin
  obtain ⟨x, hx, hpath⟩ := hin
  rw [List.mem_filterMap] at hx
  obtain ⟨qf, hqf, hsome⟩ := hx
  rcases hp : parse_and_visit_file qf with msg | info <;> rw [hp] at hsome
  · simp [Except.toOption] at hsome
  · simp only [Except.toOption, Option.map] at hsome
    rw [Option.some_inj] at hsome
    have hqpath : qf.path = pf.path := by
      rw [← hpath, ← hsome]
  -- the matched file parsed successfully, yet by assumption every file
  -- sharing pf's path has fatal diagnostics, so parsing it must fail
    have := parse_and_visit_file_fatal qf (hall qf hqf hqpath)
    rw [this] at hp
    exact absurd hp (by simp)

/-- Witness for C9 at concrete inputs: one fatal file next to
`sample_file`; its extraction errors out and its path is absent from
the analysis results. -/
theorem claim_C9_fatal_parse_policy_witness :
    parse_and_visit_file
        { path := "bad.cpp", diagnostics := [DiagnosticSeverity.fatal], top_level := [] } =
      Except.error ("Fatal parsing errors in " ++ "bad.cpp") ∧
    (analyze_files
        [{ path := "bad.cpp", diagnostics := [DiagnosticSeverity.fatal], top_level := [] },
          sample_file]).2 = Except.ok () ∧
    "bad.cpp" ∉
      (analyze_files
          [{ path := "bad.cpp", diagnostics := [DiagnosticSeverity.fatal], top_level := [] },
            sample_file]).1.map Prod.fst := by
  refine ⟨?_, ?_, ?_⟩
  · exact claim_C9_fatal_parse_policy.1
      { path := "bad.cpp", diagnostics := [DiagnosticSeverity.fatal], top_level := [] } rfl
  · exact claim_C9_fatal_parse_policy.2.1
      [{ path := "bad.cpp", diagnostics := [DiagnosticSeverity.fatal], top_level := [] },
        sample_file]
  · exact claim_C9_fatal_parse_policy.2.2.2
      [{ path := "bad.cpp", diagnostics := [DiagnosticSeverity.fatal], top_level := [] },
        sample_file]
      { path := "bad.cpp", diagnostics := [DiagnosticSeverity.fatal], top_level := [] }
      (List.mem_cons_self _ _) rfl
      (by
        intro qf hqf hp
        simp only [List.mem_cons, List.not_mem_nil, or_false] at hqf
        rcases hqf with hqf | hqf
        · subst hqf; rfl
        · subst hqf
          exact absurd hp (by simp [sample_file]))

/-- C10: every `FunctionInfo` the structural extractor emits has
`has_body = true` (only definition cursors are recorded and the field is
set unconditionally), so the coverage calculator's `has_body` filter is
vacuous on extractor output: the per-file functions total equals the
number of `FunctionInfo` entries. -/
theorem claim_C10_has_body_vacuous :
    (∀ (c : Cursor) (ctx : AstVisitorContext) (fi : FunctionInfo),
      fi ∈ (visit_cursor_recursive ctx c).functions → fi.has_body = true) ∧
    (∀ (pf : ParsedFile) (fa : FileAstInfo), parse_and_visit_file pf = Except.ok fa →
      (∀ fi ∈ fa.functions, fi.has_body = true) ∧
      ∀ ls : List LogCallSite,
        (calculate_file_coverage fa ls).functions.total = fa.functions.length) := by
  refine ⟨visit_cursor_has_body, ?_⟩
  intro pf fa h
  unfold parse_and_visit_file at h
  split at h
  · simp at h
  · rw [Except.ok.injEq] at h
    subst h
    have hbody : ∀ fi ∈ (visit_cursor_list
        { current_function_qname := none, current_class_name := none } pf.top_level).functions,
        fi.has_body = true :=
      fun fi hfi => visit_cursor_list_has_body pf.top_level
        (fun c _ => visit_cursor_has_body c) _ fi hfi
    refine ⟨hbody, ?_⟩
    intro ls
    unfold calculate_file_coverage
    dsimp only
    rw [calculate_percentage_total]
    dsimp only
    rw [List.filter_eq_self.mpr hbody]

/-- Witness for C10 at a concrete input: for `sample_file` (one
function `f` with an `if` inside) the functions total equals the length
of the extracted functions list. -/
theorem claim_C10_has_body_vacuous_witness :
    (calculate_file_coverage
        { file_path := "w.cpp"
          functions :=
            [{ name := "f"
               qualified_name := "c:@F@f#"
               start_location := { file_path := "w.cpp", line := 10, column := 1 }
               end_location := { file_path := "w.cpp", line := 20, column := 1 }
               is_method := false
               class_name := none
               return_type := "void"
               parameters := []
               has_body := true }]
          branches :=
            [{ parent_function_qualified_name := "c:@F@f#"
               branch_type := "if"
               start_location := { file_path := "w.cpp", line := 12, column := 3 }
               end_location := { file_path := "w.cpp", line := 14, column := 3 }
               condition_expression := none }]
          exceptions := [] } []).functions.total =
      ({ file_path := "w.cpp"
         functions :=
           [{ name := "f"
              qualified_name := "c:@F@f#"
              start_location := { file_path := "w.cpp", line := 10, column := 1 }
              end_location := { file_path := "w.cpp", line := 20, column := 1 }
              is_method := false
              class_name := none
              return_type := "void"
              parameters := []
              has_body := true }]
         branches :=
           [{ parent_function_qualified_name := "c:@F@f#"
              branch_type := "if"
              start_location := { file_path := "w.cpp", line := 12, column := 3 }
              end_location := { file_path := "w.cpp", line := 14, column := 3 }
              condition_expression := none }]
         exceptions := [] } : FileAstInfo).functions.length :=
  (claim_C10_has_body_vacuous.2 sample_file _ rfl).2 []

end Dlogcover
